import Mathlib

/-!
# Big Brother Barber Shop — verification of the scheduling core

A shallow embedding of the appointment-scheduling core of the repository
(domain entities, the slot-availability engine, the persistence layer's
appointment table operations, authentication, and the chat session system)
together with theorems settling the specification claims.

Modelling conventions:
* Instants are natural numbers counting minutes in the single business
  timezone (the source converts everything to Colombia time before
  comparing, so one linear clock suffices); a calendar date is the day
  index `t / minutesPerDay`, the time of day is `t % minutesPerDay`.
* JavaScript methods that throw are modelled with `Except String`.
* SQL tables are lists of rows; the `UNIQUE` column constraints of the
  schema are modelled as explicit pre-insert/pre-update checks which
  return `Except.error` exactly when PostgreSQL would raise a
  unique-constraint violation.
-/

namespace BigBrother

/-- Minutes per calendar day. -/
def minutesPerDay : Nat := 1440

/-- Appointment status (`Appointment.STATUSES` in `Appointment.js`). -/
inductive Status where
  | pending
  | confirmed
  | cancelled
  | completed
deriving DecidableEq

/-- One row of the `appointments` table / the `Appointment` domain entity.
`dateTime` and `createdAt` are instants in minutes. -/
structure Appointment where
  id : String
  phoneNumber : String
  customerName : String
  barberId : String
  serviceType : String
  dateTime : Nat
  status : Status
  createdAt : Nat
deriving DecidableEq

/-- `Appointment.confirm()`: throws on a cancelled appointment, otherwise
sets the status to `confirmed` (note: it does NOT guard `completed`). -/
def Appointment.confirm (a : Appointment) : Except String Appointment :=
  if a.status = Status.cancelled then
    Except.error "Cannot confirm a cancelled appointment"
  else
    Except.ok { a with status := Status.confirmed }

/-- `Appointment.cancel()`: throws on a completed appointment, otherwise
sets the status to `cancelled`. -/
def Appointment.cancel (a : Appointment) : Except String Appointment :=
  if a.status = Status.completed then
    Except.error "Cannot cancel a completed appointment"
  else
    Except.ok { a with status := Status.cancelled }

/-- `Appointment.complete()` in `Appointment.js`: unconditionally sets the
status to `completed`. -/
def Appointment.complete (a : Appointment) : Except String Appointment :=
  Except.ok { a with status := Status.completed }

/-- `Appointment.complete()` in the second entity variant (the class kept in
`ClientNote.js`): only a confirmed appointment can be completed. -/
def Appointment.completeChecked (a : Appointment) : Except String Appointment :=
  if a.status ≠ Status.confirmed then
    Except.error "Only confirmed appointments can be completed"
  else
    Except.ok { a with status := Status.completed }

/-- `Appointment.isPast()`: the scheduled instant is before now. -/
def Appointment.isPast (a : Appointment) (now : Nat) : Bool :=
  a.dateTime < now

/-- A concrete completed appointment, used to exercise the lifecycle ops. -/
def completedApt : Appointment :=
  { id := "a1", phoneNumber := "573001112233", customerName := "Ana",
    barberId := "barber_carlos", serviceType := "corte",
    dateTime := 1000, status := Status.completed, createdAt := 0 }

/-- **C2** counterexample. The claim says no operation moves a terminal
(`cancelled`/`completed`) appointment to a different non-terminal status and
that every transition out of a terminal status fails. On a `completed`
appointment, `confirm()` succeeds and rewrites the status to `confirmed`,
a non-cancelled/non-completed value. -/
theorem C2_counterexample :
    completedApt.status = Status.completed ∧
    completedApt.confirm = Except.ok { completedApt with status := Status.confirmed } ∧
    Status.confirmed ≠ Status.cancelled ∧ Status.confirmed ≠ Status.completed := by
  refine ⟨rfl, rfl, by decide, by decide⟩

/-- **C2** (amended): transitions out of a terminal status are only partially
blocked. `confirm()` on a cancelled appointment fails and `cancel()` on a
completed appointment fails, each leaving the status unchanged (the guard
throws before any mutation); but `confirm()` on a completed appointment
succeeds and changes the status to `confirmed`, and `complete()` succeeds
from any status whatsoever (the second entity variant additionally rejects
`complete()` unless the status is `confirmed`). -/
theorem C2_terminal_transitions (a : Appointment) :
    (a.status = Status.cancelled →
      a.confirm = Except.error "Cannot confirm a cancelled appointment") ∧
    (a.status = Status.completed →
      a.cancel = Except.error "Cannot cancel a completed appointment") ∧
    (a.status = Status.completed →
      a.confirm = Except.ok { a with status := Status.confirmed }) ∧
    a.complete = Except.ok { a with status := Status.completed } ∧
    (a.status = Status.cancelled →
      a.completeChecked = Except.error "Only confirmed appointments can be completed") := by
  refine ⟨?_, ?_, ?_, rfl, ?_⟩
  · intro h
    simp [Appointment.confirm, h]
  · intro h
    simp [Appointment.cancel, h]
  · intro h
    simp [Appointment.confirm, h]
  · intro h
    simp [Appointment.completeChecked, h]

/-- Witness for `C2_terminal_transitions` at the concrete completed
appointment. -/
theorem C2_terminal_transitions_witness :
    completedApt.cancel = Except.error "Cannot cancel a completed appointment" :=
  (C2_terminal_transitions completedApt).2.1 rfl

/-! ## Working hours and slot generation (`Barber.js`) -/

/-- Per-barber working hours. The source field `end` is a reserved word in
Lean and is rendered `endHour`. -/
structure WorkingHours where
  start : Nat
  endHour : Nat
  slotDuration : Nat
deriving DecidableEq

/-- The default working hours of the current `Barber` entity
(9 AM – 9 PM, 60-minute slots). -/
def defaultWorkingHours : WorkingHours :=
  { start := 9, endHour := 21, slotDuration := 60 }

/-- The `Barber` domain entity (current variant, with admin credentials).
The source field `alias` is a reserved word in Lean and is rendered
`aliasName`. -/
structure Barber where
  id : String
  name : String
  aliasName : String
  pinHash : Option String
  isActive : Bool
  workingHours : WorkingHours
deriving DecidableEq

/-- One generated slot: the display hour and the slot-start instant. -/
structure Slot where
  time : Nat
  dateTime : Nat
deriving DecidableEq

/-- `Barber.generateTimeSlots(date)` (current variant): one slot per working
hour; when `day` is today in business time, hours `≤` the current hour are
skipped; on any other date no hour is skipped. `now` is the current instant
in business-time minutes. -/
def Barber.generateTimeSlots (b : Barber) (day now : Nat) : List Slot :=
  (List.range' b.workingHours.start (b.workingHours.endHour - b.workingHours.start)).filterMap
    (fun hour =>
      if day = now / minutesPerDay ∧ hour ≤ now % minutesPerDay / 60 then
        none
      else
        some { time := hour, dateTime := day * minutesPerDay + hour * 60 })

/-- `Barber.generateTimeSlots(date)` (earlier entity variant in
`src/domain/entities/Barber.js`): keeps a slot only when its instant lies
strictly in the future, on every date. -/
def Barber.generateTimeSlotsV1 (b : Barber) (day now : Nat) : List Slot :=
  (List.range' b.workingHours.start (b.workingHours.endHour - b.workingHours.start)).filterMap
    (fun hour =>
      if day * minutesPerDay + hour * 60 > now then
        some { time := hour, dateTime := day * minutesPerDay + hour * 60 }
      else
        none)

theorem filterMap_eq_map_of_forall_some {α β : Type} (f : α → Option β) (g : α → β)
    (l : List α) (h : ∀ x ∈ l, f x = some (g x)) : l.filterMap f = l.map g := by
  induction l with
  | nil => rfl
  | cons a t ih =>
    rw [List.filterMap_cons, h a (List.mem_cons_self a t), List.map_cons,
      ih (fun x hx => h x (List.mem_cons_of_mem a hx))]

/-- **C6**: when the requested date is today in business time, no generated
slot's hour is `≤` the current business hour; on any other date the slot
list is exactly the unfiltered working-hour range. The earlier entity
variant satisfies the same two properties for today and for strictly future
dates (it keeps a slot exactly when its instant is in the future). -/
theorem C6_today_hour_filter (b : Barber) (day now : Nat) :
    (day = now / minutesPerDay →
      ∀ s ∈ b.generateTimeSlots day now, now % minutesPerDay / 60 < s.time) ∧
    (day ≠ now / minutesPerDay →
      b.generateTimeSlots day now =
        (List.range' b.workingHours.start (b.workingHours.endHour - b.workingHours.start)).map
          (fun hour => { time := hour, dateTime := day * minutesPerDay + hour * 60 })) ∧
    (day = now / minutesPerDay →
      ∀ s ∈ b.generateTimeSlotsV1 day now, now % minutesPerDay / 60 < s.time) ∧
    (now / minutesPerDay < day →
      b.generateTimeSlotsV1 day now =
        (List.range' b.workingHours.start (b.workingHours.endHour - b.workingHours.start)).map
          (fun hour => { time := hour, dateTime := day * minutesPerDay + hour * 60 })) := by
  refine ⟨?_, ?_, ?_, ?_⟩
  · intro hday s hs
    rcases List.mem_filterMap.mp hs with ⟨hour, _, hsome⟩
    have hnle : ¬ hour ≤ now % minutesPerDay / 60 := by
      intro hle
      rw [if_pos ⟨hday, hle⟩] at hsome
      exact absurd hsome (by simp)
    rw [if_neg (fun h => hnle h.2)] at hsome
    simp only [Option.some.injEq] at hsome
    subst hsome
    show now % minutesPerDay / 60 < hour
    omega
  · intro hday
    apply filterMap_eq_map_of_forall_some
    intro hour _
    have : ¬(day = now / minutesPerDay ∧ hour ≤ now % minutesPerDay / 60) := by
      intro h
      exact hday h.1
    simp [this]
  · intro hday s hs
    rcases List.mem_filterMap.mp hs with ⟨hour, _, hsome⟩
    by_cases hcond : day * minutesPerDay + hour * 60 > now
    · rw [if_pos hcond] at hsome
      simp only [Option.some.injEq] at hsome
      subst hsome
      show now % minutesPerDay / 60 < hour
      subst hday
      simp only [minutesPerDay] at hcond ⊢
      omega
    · rw [if_neg hcond] at hsome
      exact absurd hsome (by simp)
  · intro hday
    apply filterMap_eq_map_of_forall_some
    intro hour _
    have : day * minutesPerDay + hour * 60 > now := by
      simp only [minutesPerDay] at hday ⊢
      omega
    simp [this]

/-- A concrete barber for witnesses (working hours 9–21). -/
def bCarlos : Barber :=
  { id := "barber_carlos", name := "Carlos Mendoza", aliasName := "carlos",
    pinHash := some "hash1234", isActive := true,
    workingHours := defaultWorkingHours }

/-- Witness for `C6_today_hour_filter`: on a non-today date (day 6, with the
clock inside day 5) the slot list is the full 9–21 hour range, and on day 5
at 10:30 the 15:00 slot returned by the engine has hour `> 10`. -/
theorem C6_today_hour_filter_witness :
    bCarlos.generateTimeSlots 6 (5 * minutesPerDay + 630) =
      (List.range' 9 12).map
        (fun hour => { time := hour, dateTime := 6 * minutesPerDay + hour * 60 }) ∧
    (5 * minutesPerDay + 630) % minutesPerDay / 60 <
      (Slot.mk 15 (5 * minutesPerDay + 900)).time := by
  constructor
  · exact (C6_today_hour_filter bCarlos 6 (5 * minutesPerDay + 630)).2.1 (by decide)
  · exact (C6_today_hour_filter bCarlos 5 (5 * minutesPerDay + 630)).1 (by decide)
      (Slot.mk 15 (5 * minutesPerDay + 900)) (by decide)

/-! ## Blocked intervals (`BlockedSlot.js`) -/

/-- The `BlockedSlot` domain entity. `date` is the day index of the one-off
date (`none` when unset); `startTime`/`endTime` are minutes of the day
(the source stores them as `"HH:MM"` strings with start < end). -/
structure BlockedSlot where
  id : String
  barberId : String
  date : Option Nat
  startTime : Nat
  endTime : Nat
  isRecurring : Bool
deriving DecidableEq

/-- `BlockedSlot.#timeConflicts(dateTime)`: the instant's time of day lies
in the half-open window `[startTime, endTime)`. -/
def BlockedSlot.timeConflicts (s : BlockedSlot) (dateTime : Nat) : Bool :=
  decide (s.startTime ≤ dateTime % minutesPerDay) &&
    decide (dateTime % minutesPerDay < s.endTime)

/-- `BlockedSlot.conflictsWith(dateTime)`: recurring slots compare only the
time of day; one-off slots with a stored date additionally require the
same calendar date. -/
def BlockedSlot.conflictsWith (s : BlockedSlot) (dateTime : Nat) : Bool :=
  if s.isRecurring then
    s.timeConflicts dateTime
  else
    match s.date with
    | some d => if d ≠ dateTime / minutesPerDay then false else s.timeConflicts dateTime
    | none => s.timeConflicts dateTime

/-! ## Repository queries over the appointments table
(`PostgreSQLAppointmentRepository`) -/

/-- `findBarberById`: lookup in the barbers table. -/
def findBarberById (barbers : List Barber) (id : String) : Option Barber :=
  barbers.find? (fun b => b.id = id)

/-- `findByBarberAndDate`: non-cancelled appointments of a barber whose
instant falls inside the given calendar day (`00:00`–`23:59`). The SQL
`ORDER BY` is dropped: every caller consumes the result as a set. -/
def findByBarberAndDate (apts : List Appointment) (barberId : String) (day : Nat) :
    List Appointment :=
  apts.filter (fun a =>
    decide (a.barberId = barberId) &&
    decide (day * minutesPerDay ≤ a.dateTime) &&
    decide (a.dateTime ≤ day * minutesPerDay + (minutesPerDay - 1)) &&
    !(decide (a.status = Status.cancelled)))

/-- `getBookedSlots`: the instants of that day's non-cancelled appointments. -/
def getBookedSlots (apts : List Appointment) (barberId : String) (day : Nat) : List Nat :=
  (findByBarberAndDate apts barberId day).map (fun a => a.dateTime)

/-- `findBlockedSlotsByBarberAndDate`: blocked slots of the barber whose
stored date is the given day, plus all recurring ones. -/
def findBlockedSlotsByBarberAndDate (blocked : List BlockedSlot) (barberId : String)
    (day : Nat) : List BlockedSlot :=
  blocked.filter (fun s =>
    decide (s.barberId = barberId) && (decide (s.date = some day) || s.isRecurring))

/-- The fixed appointment duration (`Appointment.DURATION_MINUTES`). -/
def durationMinutes : Nat := 60

/-- The SQL overlap condition of `isSlotAvailable`: the appointment either
starts inside `[slotStart, slotStart + 60)` or starts before `slotStart`
and ends after it. -/
def slotConflictSql (aptTime slotStart : Nat) : Bool :=
  (decide (slotStart ≤ aptTime) && decide (aptTime < slotStart + durationMinutes)) ||
  (decide (slotStart < aptTime + durationMinutes) && decide (aptTime < slotStart))

/-- `isSlotAvailable(barberId, dateTime)`: no non-cancelled appointment of
the barber overlaps the one-hour slot starting at `slotStart`. -/
def isSlotAvailable (apts : List Appointment) (barberId : String) (slotStart : Nat) : Bool :=
  decide ((apts.filter (fun a =>
    decide (a.barberId = barberId) && !(decide (a.status = Status.cancelled)) &&
      slotConflictSql a.dateTime slotStart)).length = 0)

/-- The persistent store consumed by the availability engine. -/
structure Store where
  barbers : List Barber
  appointments : List Appointment
  blockedSlots : List BlockedSlot
deriving DecidableEq

/-- `getAvailableSlots(barberId, date)`: generate the working-hour slots,
then drop any slot whose instant equals a booked instant or conflicts with
a blocked slot fetched for that day. -/
def getAvailableSlots (store : Store) (barberId : String) (day now : Nat) : List Slot :=
  match findBarberById store.barbers barberId with
  | none => []
  | some barber =>
    let allSlots := barber.generateTimeSlots day now
    let bookedTimes := getBookedSlots store.appointments barberId day
    let blocked := findBlockedSlotsByBarberAndDate store.blockedSlots barberId day
    allSlots.filter (fun slot =>
      !(bookedTimes.contains slot.dateTime) &&
      blocked.all (fun s => !(s.conflictsWith slot.dateTime)))

/-- **C5**: the stored overlap rule is exactly half-open interval overlap
with the fixed 60-minute duration — two intervals conflict iff each start
lies strictly before the other end — so `isSlotAvailable` is `true` exactly
when no non-cancelled appointment of the barber overlaps the slot, a slot
starting exactly when an appointment ends is reported free, and the
blocked-interval time check rejects nothing at the interval's end instant. -/
theorem C5_halfopen_overlap :
    (∀ aptTime slotStart : Nat,
      slotConflictSql aptTime slotStart = true ↔
        (aptTime < slotStart + durationMinutes ∧ slotStart < aptTime + durationMinutes)) ∧
    (∀ (apts : List Appointment) (barberId : String) (slotStart : Nat),
      isSlotAvailable apts barberId slotStart = true ↔
        ∀ a ∈ apts, a.barberId = barberId → a.status ≠ Status.cancelled →
          ¬(a.dateTime < slotStart + durationMinutes ∧
            slotStart < a.dateTime + durationMinutes)) ∧
    (∀ aptTime slotStart : Nat, slotStart = aptTime + durationMinutes →
      slotConflictSql aptTime slotStart = false) ∧
    (∀ (s : BlockedSlot) (t : Nat), t % minutesPerDay = s.endTime →
      s.timeConflicts t = false) := by
  have hiff : ∀ aptTime slotStart : Nat,
      slotConflictSql aptTime slotStart = true ↔
        (aptTime < slotStart + durationMinutes ∧ slotStart < aptTime + durationMinutes) := by
    intro a s
    simp only [slotConflictSql, durationMinutes, Bool.or_eq_true, Bool.and_eq_true,
      decide_eq_true_eq]
    omega
  refine ⟨hiff, ?_, ?_, ?_⟩
  · intro apts barberId slotStart
    simp only [isSlotAvailable, decide_eq_true_eq, List.length_eq_zero,
      List.filter_eq_nil_iff, Bool.and_eq_true, Bool.not_eq_true', decide_eq_true_eq,
      decide_eq_false_iff_not]
    constructor
    · intro h a ha hb hs hov
      exact h a ha ⟨⟨hb, hs⟩, (hiff a.dateTime slotStart).mpr hov⟩
    · intro h a ha hc
      exact h a ha hc.1.1 hc.1.2 ((hiff a.dateTime slotStart).mp hc.2)
  · intro a s hs
    subst hs
    rw [← Bool.not_eq_true]
    intro htrue
    have h2 := (hiff a (a + durationMinutes)).mp htrue
    simp only [durationMinutes] at h2
    omega
  · intro s t ht
    rw [← Bool.not_eq_true]
    intro htrue
    simp only [BlockedSlot.timeConflicts, Bool.and_eq_true, decide_eq_true_eq] at htrue
    omega

/-- Witness for `C5_halfopen_overlap`: an appointment at minute 900 does not
conflict with the back-to-back slot starting at minute 960. -/
theorem C5_halfopen_overlap_witness : slotConflictSql 900 960 = false :=
  C5_halfopen_overlap.2.2.1 900 960 rfl

/-- Shape of any slot produced by `Barber.generateTimeSlots`: its hour lies
in the working-hour range and its instant is that hour on the requested
day. -/
theorem mem_generateTimeSlots (b : Barber) (day now : Nat) (s : Slot)
    (hs : s ∈ b.generateTimeSlots day now) :
    b.workingHours.start ≤ s.time ∧ s.time < b.workingHours.endHour ∧
    s.dateTime = day * minutesPerDay + s.time * 60 := by
  rcases List.mem_filterMap.mp hs with ⟨hour, hmem, hsome⟩
  rcases List.mem_range'_1.mp hmem with ⟨hlo, hhi⟩
  by_cases hcond : day = now / minutesPerDay ∧ hour ≤ now % minutesPerDay / 60
  · rw [if_pos hcond] at hsome
    exact absurd hsome (by simp)
  · rw [if_neg hcond] at hsome
    simp only [Option.some.injEq] at hsome
    subst hsome
    refine ⟨hlo, ?_, rfl⟩
    show hour < b.workingHours.endHour
    omega

/-- **C1** (amended): every slot returned by `getAvailableSlots(S, D)` is
free of conflicts in the following sense. No returned slot instant equals
the instant of a non-cancelled appointment of S; consequently, as long as
every stored appointment starts exactly on an hour boundary (which is true
of every appointment the booking flow itself creates), no returned slot's
one-hour window overlaps a non-cancelled appointment of S. And no returned
slot instant is covered by a blocked interval of S applicable to D
(recurring ones matching by time-of-day on any date, one-off ones only on
their exact date). An appointment NOT aligned to an hour boundary can
overlap a returned slot without excluding it, which is what blocks the
claim as originally stated. -/
theorem C1_available_slot_conflict_free (store : Store) (barberId : String)
    (day now : Nat)
    (hHours : ∀ b ∈ store.barbers, b.workingHours.endHour ≤ 24) :
    ∀ slot ∈ getAvailableSlots store barberId day now,
      (∀ a ∈ store.appointments, a.barberId = barberId → a.status ≠ Status.cancelled →
        a.dateTime % 60 = 0 →
        ¬(a.dateTime < slot.dateTime + durationMinutes ∧
          slot.dateTime < a.dateTime + durationMinutes)) ∧
      (∀ s ∈ store.blockedSlots, s.barberId = barberId →
        (s.isRecurring = true ∨ s.date = some day) →
        ¬(s.startTime ≤ slot.dateTime % minutesPerDay ∧
          slot.dateTime % minutesPerDay < s.endTime)) := by
  intro slot hslot
  unfold getAvailableSlots at hslot
  cases hfind : findBarberById store.barbers barberId with
  | none => rw [hfind] at hslot; exact absurd hslot (by simp)
  | some barber =>
    rw [hfind] at hslot
    simp only [List.mem_filter, Bool.and_eq_true, Bool.not_eq_true',
      List.all_eq_true] at hslot
    obtain ⟨hgen, hbooked, hblocked⟩ := hslot
    have hbMem : barber ∈ store.barbers := List.mem_of_find?_eq_some hfind
    obtain ⟨_, hhour, hinstant⟩ := mem_generateTimeSlots barber day now slot hgen
    have hhour24 : slot.time < 24 := lt_of_lt_of_le hhour (hHours barber hbMem)
    constructor
    · intro a ha hab hanc halign hov
      -- hour-aligned overlap forces instant equality
      have haeq : a.dateTime = slot.dateTime := by
        have hs60 : slot.dateTime % 60 = 0 := by
          rw [hinstant]
          simp only [minutesPerDay]
          omega
        simp only [durationMinutes] at hov
        omega
      -- hence the appointment is one of the day's booked slots
      have hrange : day * minutesPerDay ≤ a.dateTime ∧
          a.dateTime ≤ day * minutesPerDay + (minutesPerDay - 1) := by
        rw [haeq, hinstant]
        simp only [minutesPerDay]
        omega
      have hmemBooked : slot.dateTime ∈ getBookedSlots store.appointments barberId day := by
        rw [← haeq]
        refine List.mem_map_of_mem _ (List.mem_filter.mpr ⟨ha, ?_⟩)
        simp only [Bool.and_eq_true, decide_eq_true_eq, Bool.not_eq_true',
          decide_eq_false_iff_not]
        exact ⟨⟨⟨hab, hrange.1⟩, hrange.2⟩, hanc⟩
      simp only [List.contains, List.elem_eq_mem, decide_eq_false_iff_not] at hbooked
      exact hbooked hmemBooked
    · intro s hsmem hsb happlic hcover
      have hq : s ∈ findBlockedSlotsByBarberAndDate store.blockedSlots barberId day := by
        refine List.mem_filter.mpr ⟨hsmem, ?_⟩
        simp only [Bool.and_eq_true, Bool.or_eq_true, decide_eq_true_eq]
        rcases happlic with h | h
        · exact ⟨hsb, Or.inr h⟩
        · exact ⟨hsb, Or.inl h⟩
      have hnoconf := hblocked s hq
      have hdayEq : slot.dateTime / minutesPerDay = day := by
        rw [hinstant]
        simp only [minutesPerDay]
        omega
      have htc : s.timeConflicts slot.dateTime = true := by
        simp only [BlockedSlot.timeConflicts, Bool.and_eq_true, decide_eq_true_eq]
        exact hcover
      unfold BlockedSlot.conflictsWith at hnoconf
      rcases happlic with hrec | hdate
      · rw [if_pos hrec, htc] at hnoconf
        cases hnoconf
      · by_cases hrec : s.isRecurring = true
        · rw [if_pos hrec, htc] at hnoconf
          cases hnoconf
        · rw [if_neg hrec, hdate, hdayEq] at hnoconf
          simp [htc] at hnoconf

/-- A pending on-the-half-hour appointment (14:30 of day 10) for Carlos. -/
def aptHalfHour : Appointment :=
  { id := "apt-1430", phoneNumber := "573009998877", customerName := "Luis",
    barberId := "barber_carlos", serviceType := "corte",
    dateTime := 10 * minutesPerDay + 870, status := Status.pending, createdAt := 0 }

/-- Store exhibiting the C1 counterexample. -/
def storeC1 : Store :=
  { barbers := [bCarlos], appointments := [aptHalfHour], blockedSlots := [] }

/-- **C1** counterexample to the claim as stated: with an appointment booked
at 14:30, the availability engine still returns the 15:00 slot of the same
day even though that slot's instant lies inside (overlaps) the
appointment's one-hour window — only exact instant equality is filtered. -/
theorem C1_counterexample :
    Slot.mk 15 (10 * minutesPerDay + 900) ∈ getAvailableSlots storeC1 "barber_carlos" 10 0 ∧
    aptHalfHour ∈ storeC1.appointments ∧
    aptHalfHour.barberId = "barber_carlos" ∧
    aptHalfHour.status ≠ Status.cancelled ∧
    aptHalfHour.dateTime < (10 * minutesPerDay + 900) + durationMinutes ∧
    10 * minutesPerDay + 900 < aptHalfHour.dateTime + durationMinutes := by
  decide

/-- A pending on-the-hour appointment (14:00 of day 10) for Carlos. -/
def aptOnHour : Appointment :=
  { id := "apt-1400", phoneNumber := "573001112233", customerName := "Ana",
    barberId := "barber_carlos", serviceType := "corte",
    dateTime := 10 * minutesPerDay + 840, status := Status.pending, createdAt := 0 }

/-- A recurring lunch block 12:00–13:00 for Carlos. -/
def lunchBlock : BlockedSlot :=
  { id := "bs-lunch", barberId := "barber_carlos", date := none,
    startTime := 720, endTime := 780, isRecurring := true }

/-- A store with an on-hour booking and a recurring blocked interval. -/
def storeOK : Store :=
  { barbers := [bCarlos], appointments := [aptOnHour], blockedSlots := [lunchBlock] }

/-- Witness for `C1_available_slot_conflict_free`: the 15:00 slot returned
for day 10 overlaps neither the 14:00 appointment nor the recurring lunch
block. -/
theorem C1_available_slot_conflict_free_witness :
    ¬(aptOnHour.dateTime < (Slot.mk 15 (10 * minutesPerDay + 900)).dateTime + durationMinutes ∧
      (Slot.mk 15 (10 * minutesPerDay + 900)).dateTime < aptOnHour.dateTime + durationMinutes) ∧
    ¬(lunchBlock.startTime ≤ (Slot.mk 15 (10 * minutesPerDay + 900)).dateTime % minutesPerDay ∧
      (Slot.mk 15 (10 * minutesPerDay + 900)).dateTime % minutesPerDay < lunchBlock.endTime) := by
  have h := C1_available_slot_conflict_free storeOK "barber_carlos" 10 0 (by decide)
    (Slot.mk 15 (10 * minutesPerDay + 900)) (by decide)
  exact ⟨h.1 aptOnHour (by decide) (by decide) (by decide) (by decide),
    h.2 lunchBlock (by decide) (by decide) (Or.inl (by decide))⟩

/-! ## Saving appointments and the one-active-appointment invariant
(`save`, `hasActiveAppointment`, `ScheduleAppointment.execute`) -/

/-- `findByPhone`: the first non-cancelled appointment of a phone number
(`LIMIT 1`). -/
def findByPhone (apts : List Appointment) (phone : String) : Option Appointment :=
  apts.find? (fun a =>
    decide (a.phoneNumber = phone) && !(decide (a.status = Status.cancelled)))

/-- `hasActiveAppointment`: the phone has a non-cancelled appointment whose
instant has not yet passed. -/
def hasActiveAppointment (apts : List Appointment) (now : Nat) (phone : String) : Bool :=
  match findByPhone apts phone with
  | none => false
  | some a => !(a.isPast now) && !(decide (a.status = Status.cancelled))

/-- `findById`. -/
def findById (apts : List Appointment) (id : String) : Option Appointment :=
  apts.find? (fun a => a.id = id)

/-- `save(appointment)`. If a row with the same id exists it is updated in
place; otherwise, if a row with the same phone number exists it is DELETED
first (delete-then-insert), and the new row is inserted. The table's
`UNIQUE (phone_number)` constraint is modelled by the explicit checks that
return `Except.error` exactly where PostgreSQL would raise a
unique-violation. -/
def save (apts : List Appointment) (a : Appointment) : Except Unit (List Appointment) :=
  if apts.any (fun r => r.id = a.id) then
    if apts.any (fun r => !(decide (r.id = a.id)) && decide (r.phoneNumber = a.phoneNumber)) then
      Except.error ()
    else
      Except.ok (apts.map (fun r =>
        if r.id = a.id then { a with createdAt := r.createdAt } else r))
  else
    match apts.find? (fun r => r.phoneNumber = a.phoneNumber) with
    | some victim =>
      if (apts.filter (fun r => !(decide (r.id = victim.id)))).any
          (fun r => r.phoneNumber = a.phoneNumber) then
        Except.error ()
      else
        Except.ok (apts.filter (fun r => !(decide (r.id = victim.id))) ++ [a])
    | none => Except.ok (apts ++ [a])

/-- The schema constraints of the `appointments` table: `id` is the primary
key and `phone_number` is `UNIQUE`. -/
def UniqueTable (apts : List Appointment) : Prop :=
  apts.Pairwise (fun r s => r.id ≠ s.id ∧ r.phoneNumber ≠ s.phoneNumber)

/-- Parameters of `ScheduleAppointment.execute`. -/
structure ScheduleParams where
  phoneNumber : String
  customerName : String
  barberId : String
  serviceType : String
  dateTime : Nat
  skipActiveCheck : Bool

/-- `ScheduleAppointment.execute`: rejects (returning the store unchanged
and no appointment) when the customer already has an active appointment
(unless `skipActiveCheck`), when the instant is not in the future, or when
the slot is no longer available; otherwise creates and saves the
appointment. `newId` stands for the generated UUID. -/
def ScheduleAppointment.execute (apts : List Appointment) (now : Nat) (newId : String)
    (p : ScheduleParams) : List Appointment × Option Appointment :=
  if p.skipActiveCheck = false ∧ hasActiveAppointment apts now p.phoneNumber = true then
    (apts, none)
  else if p.dateTime ≤ now then
    (apts, none)
  else if isSlotAvailable apts p.barberId p.dateTime = false then
    (apts, none)
  else
    let a : Appointment :=
      { id := newId, phoneNumber := p.phoneNumber, customerName := p.customerName,
        barberId := p.barberId, serviceType := p.serviceType,
        dateTime := p.dateTime, status := Status.pending, createdAt := now }
    match save apts a with
    | Except.ok apts2 => (apts2, some a)
    | Except.error _ => (apts, none)

theorem save_preserves_unique {apts apts2 : List Appointment} {a : Appointment}
    (hInv : UniqueTable apts) (hsave : save apts a = Except.ok apts2) :
    UniqueTable apts2 := by
  unfold save at hsave
  split at hsave
  next hid =>
    split at hsave
    next => exact absurd hsave (by simp)
    next hdup =>
      simp only [Except.ok.injEq] at hsave
      subst hsave
      have hother : ∀ r ∈ apts, r.id ≠ a.id → r.phoneNumber ≠ a.phoneNumber := by
        intro r hr hne
        have h := List.any_eq_false.mp (Bool.eq_false_iff.mpr hdup) r hr
        simp only [Bool.and_eq_true, Bool.not_eq_true', decide_eq_false_iff_not,
          decide_eq_true_eq, not_and] at h
        exact h hne
      apply List.pairwise_map.mpr
      refine hInv.imp_of_mem ?_
      intro r s hr hs hrs
      by_cases hrid : r.id = a.id
      · by_cases hsid : s.id = a.id
        · exact absurd (hrid.trans hsid.symm) hrs.1
        · refine ⟨?_, ?_⟩
          · simpa [hrid, hsid] using hrs.1
          · simp only [if_pos hrid, if_neg hsid]
            exact fun h => hother s hs hsid h.symm
      · by_cases hsid : s.id = a.id
        · refine ⟨?_, ?_⟩
          · simp only [if_neg hrid, if_pos hsid]
            exact fun h => hrs.1 (h ▸ hsid.symm)
          · simp only [if_neg hrid, if_pos hsid]
            exact fun h => hother r hr hrid h
        · simpa [hrid, hsid] using hrs
  next hid =>
    have hFreshId : ∀ r ∈ apts, r.id ≠ a.id := by
      intro r hr
      have h := List.any_eq_false.mp (Bool.eq_false_iff.mpr hid) r hr
      simpa using h
    split at hsave
    next victim hvict =>
      split at hsave
      next => exact absurd hsave (by simp)
      next hdup =>
        simp only [Except.ok.injEq] at hsave
        subst hsave
        have hsub : (apts.filter (fun r => !(decide (r.id = victim.id)))).Sublist apts :=
          List.filter_sublist _
        refine List.pairwise_append.mpr ⟨hInv.sublist hsub, List.pairwise_singleton _ _, ?_⟩
        intro r hr b hb
        have hba : b = a := List.mem_singleton.mp hb
        subst hba
        have hrApts : r ∈ apts := hsub.mem hr
        refine ⟨hFreshId r hrApts, ?_⟩
        have h := List.any_eq_false.mp (Bool.eq_false_iff.mpr hdup) r hr
        simpa using h
    next hvict =>
      simp only [Except.ok.injEq] at hsave
      subst hsave
      have hFreshPhone : ∀ r ∈ apts, r.phoneNumber ≠ a.phoneNumber := by
        intro r hr
        have h := List.find?_eq_none.mp hvict r hr
        simpa using h
      refine List.pairwise_append.mpr ⟨hInv, List.pairwise_singleton _ _, ?_⟩
      intro r hr b hb
      have hba : b = a := List.mem_singleton.mp hb
      subst hba
      exact ⟨hFreshId r hr, hFreshPhone r hr⟩

theorem filter_phone_length_le_one (apts : List Appointment) (phone : String)
    (h : apts.Pairwise (fun r s => r.phoneNumber ≠ s.phoneNumber)) :
    (apts.filter (fun r =>
      decide (r.phoneNumber = phone) && !(decide (r.status = Status.cancelled)))).length ≤ 1 := by
  induction apts with
  | nil => simp
  | cons x t ih =>
    rcases List.pairwise_cons.mp h with ⟨hx, ht⟩
    by_cases hpx : (decide (x.phoneNumber = phone) &&
        !(decide (x.status = Status.cancelled))) = true
    · have hxphone : x.phoneNumber = phone := by
        rcases Bool.and_eq_true .. |>.mp hpx with ⟨h1, _⟩
        simpa using h1
      have hnil : t.filter (fun r =>
          decide (r.phoneNumber = phone) && !(decide (r.status = Status.cancelled))) = [] := by
        apply List.filter_eq_nil_iff.mpr
        intro b hb hpb
        rcases Bool.and_eq_true .. |>.mp hpb with ⟨h1, _⟩
        have hbphone : b.phoneNumber = phone := by simpa using h1
        exact (hx b hb (hxphone.trans hbphone.symm)).elim
      simp [List.filter_cons, hpx, hnil]
    · simp only [List.filter_cons, hpx, Bool.false_eq_true, if_false]
      exact ih ht

/-- **C4**: the storage layer keeps at most one appointment row (hence at
most one non-cancelled one) per customer phone number — `save` preserves
the table's uniqueness constraints — and a booking attempt for a customer
who already holds an active appointment is rejected by
`ScheduleAppointment.execute` without touching the store or creating an
appointment. -/
theorem C4_one_active_per_customer (apts apts2 : List Appointment) (a : Appointment)
    (now : Nat) (newId : String) (p : ScheduleParams)
    (hInv : UniqueTable apts) :
    (save apts a = Except.ok apts2 →
      UniqueTable apts2 ∧
      ∀ phone, (apts2.filter (fun r =>
        decide (r.phoneNumber = phone) &&
          !(decide (r.status = Status.cancelled)))).length ≤ 1) ∧
    (p.skipActiveCheck = false →
      hasActiveAppointment apts now p.phoneNumber = true →
      ScheduleAppointment.execute apts now newId p = (apts, none)) := by
  constructor
  · intro hsave
    have hU := save_preserves_unique hInv hsave
    refine ⟨hU, fun phone => filter_phone_length_le_one apts2 phone (hU.imp (fun h => h.2))⟩
  · intro hskip hactive
    unfold ScheduleAppointment.execute
    rw [if_pos ⟨hskip, hactive⟩]

/-- A second customer's appointment request colliding with `aptOnHour`'s
phone-free slot; used as the C4 witness input. -/
def paramsBusy : ScheduleParams :=
  { phoneNumber := "573001112233", customerName := "Ana", barberId := "barber_carlos",
    serviceType := "corte", dateTime := 10 * minutesPerDay + 900, skipActiveCheck := false }

/-- Witness for `C4_one_active_per_customer`: with Ana's active appointment
stored, her second booking attempt is rejected and the store is unchanged;
and saving a fresh appointment keeps the uniqueness invariant. -/
theorem C4_one_active_per_customer_witness :
    ScheduleAppointment.execute [aptOnHour] 0 "fresh-id" paramsBusy = ([aptOnHour], none) :=
  (C4_one_active_per_customer [aptOnHour] [aptOnHour] aptOnHour 0 "fresh-id" paramsBusy
    (by simp [UniqueTable] : UniqueTable [aptOnHour])).2 rfl (by decide)

/-- The earlier appointment row overwritten in the C3 scenario. -/
def aptOld : Appointment :=
  { id := "a-old", phoneNumber := "573000000001", customerName := "Ana",
    barberId := "barber_carlos", serviceType := "corte",
    dateTime := 10 * minutesPerDay + 840, status := Status.pending, createdAt := 0 }

/-- A later appointment for the same customer with a fresh id. -/
def aptNewSamePhone : Appointment :=
  { id := "a-new", phoneNumber := "573000000001", customerName := "Ana",
    barberId := "barber_carlos", serviceType := "corte",
    dateTime := 11 * minutesPerDay + 840, status := Status.pending, createdAt := 5 }

/-- A different customer's appointment at exactly `aptOld`'s (staff,
instant) pair. -/
def aptSameSlotOtherPhone : Appointment :=
  { id := "a-two", phoneNumber := "573000000002", customerName := "Luis",
    barberId := "barber_carlos", serviceType := "corte",
    dateTime := 10 * minutesPerDay + 840, status := Status.pending, createdAt := 7 }

/-- **C3**: the storage layer does NOT reject the losing request. Saving a
new appointment whose customer phone already has a stored row silently
deletes that row and inserts the new one (delete-then-insert), returning
success rather than a conflict; and the table has no (staff, instant)
constraint at all, so a second appointment at the same staff and instant
is also stored without complaint. -/
theorem C3_storage_overwrites :
    save [aptOld] aptNewSamePhone = Except.ok [aptNewSamePhone] ∧
    aptOld ≠ aptNewSamePhone ∧
    save [aptOld] aptSameSlotOtherPhone = Except.ok [aptOld, aptSameSlotOtherPhone] ∧
    aptSameSlotOtherPhone.barberId = aptOld.barberId ∧
    aptSameSlotOtherPhone.dateTime = aptOld.dateTime := by
  refine ⟨by rfl, by decide, by rfl, rfl, rfl⟩

/-! ## The expiry sweep (`processExpiredAppointments`) -/

/-- One row of the `appointment_history` table. -/
structure HistoryRecord where
  id : String
  phoneNumber : String
  customerName : String
  barberId : String
  serviceType : String
  dateTime : Nat
  status : Status
  createdAt : Nat
  archivedAt : Nat
deriving DecidableEq

/-- The history row inserted for an expired appointment (status forced to
`completed`, archived now). -/
def archiveRow (a : Appointment) (now : Nat) : HistoryRecord :=
  { id := a.id, phoneNumber := a.phoneNumber, customerName := a.customerName,
    barberId := a.barberId, serviceType := a.serviceType, dateTime := a.dateTime,
    status := Status.completed, createdAt := a.createdAt, archivedAt := now }

/-- The two tables touched by the sweep. -/
structure SweepState where
  appointments : List Appointment
  history : List HistoryRecord
deriving DecidableEq

/-- One iteration of the sweep loop: delete the phone's history rows,
insert the archive row, delete the appointment row by id, count it. -/
def sweepStep (now : Nat) (acc : SweepState × Nat) (row : Appointment) : SweepState × Nat :=
  ({ appointments := acc.1.appointments.filter (fun r => !(decide (r.id = row.id))),
     history := acc.1.history.filter (fun h => !(decide (h.phoneNumber = row.phoneNumber)))
       ++ [archiveRow row now] },
   acc.2 + 1)

/-- `processExpiredAppointments()`: select the non-cancelled appointments
whose instant has passed, then run the archive loop over them, returning
the new state and the processed count. -/
def processExpiredAppointments (s : SweepState) (now : Nat) : SweepState × Nat :=
  (s.appointments.filter
    (fun a => decide (a.dateTime < now) && !(decide (a.status = Status.cancelled)))).foldl
    (sweepStep now) (s, 0)

theorem sweep_foldl_appointments_mem (now : Nat) (rows : List Appointment)
    (st : SweepState) (n : Nat) (a : Appointment)
    (ha : a ∈ (rows.foldl (sweepStep now) (st, n)).1.appointments) :
    a ∈ st.appointments ∧ ∀ r ∈ rows, a.id ≠ r.id := by
  induction rows generalizing st n with
  | nil => exact ⟨ha, by simp⟩
  | cons row t ih =>
    simp only [List.foldl_cons] at ha
    obtain ⟨hmem, hrest⟩ := ih _ _ ha
    have hmem2 : a ∈ st.appointments ∧ a.id ≠ row.id := by
      simp only [sweepStep] at hmem
      rcases List.mem_filter.mp hmem with ⟨h1, h2⟩
      exact ⟨h1, by simpa using h2⟩
    refine ⟨hmem2.1, ?_⟩
    intro r hr
    rcases List.mem_cons.mp hr with hrow | hr2
    · exact hrow ▸ hmem2.2
    · exact hrest r hr2

/-- **C8**: the sweep is idempotent. After one sweep, a second run during
which no appointment has newly become past-due (every instant past-due at
`now2` was already past-due at `now`) selects nothing, returns `0`
processed, and leaves both the appointments table and the history table
exactly as the first run left them. -/
theorem C8_sweep_idempotent (s : SweepState) (now now2 : Nat)
    (hNoNew : ∀ a ∈ s.appointments, a.status ≠ Status.cancelled →
      a.dateTime < now2 → a.dateTime < now) :
    processExpiredAppointments (processExpiredAppointments s now).1 now2 =
      ((processExpiredAppointments s now).1, 0) := by
  have hEmpty : (processExpiredAppointments s now).1.appointments.filter
      (fun a => decide (a.dateTime < now2) && !(decide (a.status = Status.cancelled))) = [] := by
    apply List.filter_eq_nil_iff.mpr
    intro a ha hpa
    rcases Bool.and_eq_true .. |>.mp hpa with ⟨hlt, hnc⟩
    have hlt2 : a.dateTime < now2 := by simpa using hlt
    have hnc2 : a.status ≠ Status.cancelled := by simpa using hnc
    obtain ⟨hmem, hfresh⟩ := sweep_foldl_appointments_mem now _ s 0 a ha
    have hexp : a ∈ s.appointments.filter
        (fun a => decide (a.dateTime < now) && !(decide (a.status = Status.cancelled))) := by
      refine List.mem_filter.mpr ⟨hmem, ?_⟩
      simp only [Bool.and_eq_true, decide_eq_true_eq, Bool.not_eq_true',
        decide_eq_false_iff_not]
      exact ⟨hNoNew a hmem hnc2 hlt2, hnc2⟩
    exact hfresh a hexp rfl
  have hunfold : processExpiredAppointments (processExpiredAppointments s now).1 now2 =
      ((processExpiredAppointments s now).1.appointments.filter
        (fun a => decide (a.dateTime < now2) && !(decide (a.status = Status.cancelled)))).foldl
        (sweepStep now2) ((processExpiredAppointments s now).1, 0) := rfl
  rw [hunfold, hEmpty, List.foldl_nil]

/-- A pending appointment already in the past at instant 200. -/
def aptPast : Appointment :=
  { id := "a-past", phoneNumber := "573000000009", customerName := "Pia",
    barberId := "barber_carlos", serviceType := "corte",
    dateTime := 100, status := Status.pending, createdAt := 0 }

/-- Sweep state with one expired appointment. -/
def sweepStateW : SweepState := { appointments := [aptPast], history := [] }

/-- Witness for `C8_sweep_idempotent` at a concrete state: the second run
over the swept state returns 0 and changes nothing. -/
theorem C8_sweep_idempotent_witness :
    processExpiredAppointments (processExpiredAppointments sweepStateW 200).1 200 =
      ((processExpiredAppointments sweepStateW 200).1, 0) :=
  C8_sweep_idempotent sweepStateW 200 200 (by decide)

/-! ## Admin authentication (`AuthenticateBarber`, `BarberPin`) -/

/-- Characterwise trim: drops whitespace from both ends (`String.trim`). -/
def trimChars (cs : List Char) : List Char :=
  ((cs.dropWhile Char.isWhitespace).reverse.dropWhile Char.isWhitespace).reverse

/-- `alias.toLowerCase().trim()`, as performed both by
`AuthenticateBarber.execute` and by `findByAlias`. -/
def sanitizeAlias (s : String) : String :=
  String.mk (trimChars (s.toList.map Char.toLower))

/-- `findByAlias`: the first active barber whose stored alias equals the
lower-cased, trimmed input; empty input short-circuits to `null`. -/
def findByAlias (barbers : List Barber) (aliasIn : String) : Option Barber :=
  if aliasIn = "" then none
  else barbers.find? (fun b =>
    decide (b.aliasName = sanitizeAlias aliasIn) && b.isActive)

/-- `BarberPin.#validatePlainPin` / `isValidFormat`: 4–6 digits after
trimming. -/
def pinFormatValid (pin : String) : Bool :=
  decide (4 ≤ (trimChars pin.toList).length) &&
    decide ((trimChars pin.toList).length ≤ 6) &&
    (trimChars pin.toList).all (fun c => c.isDigit)

/-- `Barber.verifyPin` chained through `BarberPin.verify`: a malformed PIN
yields `false` (the thrown validation error is caught), otherwise the
injected constant-time verify capability decides on the original PIN. -/
def verifyPinHash (pinHash : String) (pin : String)
    (verify : String → String → Bool) : Bool :=
  if pinFormatValid pin then verify pin pinHash else false

/-- Result of `AuthenticateBarber.execute`. -/
inductive AuthResult where
  | success (barber : Barber)
  | failure (error : String)
deriving DecidableEq

/-- `AuthenticateBarber.execute` with the supplied alias and PIN. -/
def AuthenticateBarber.execute (barbers : List Barber)
    (verify : String → String → Bool) (aliasIn pin : String) : AuthResult :=
  if aliasIn = "" then AuthResult.failure "Alias inválido"
  else if pin = "" then AuthResult.failure "PIN inválido"
  else
    match findByAlias barbers (sanitizeAlias aliasIn) with
    | none => AuthResult.failure "Credenciales inválidas"
    | some barber =>
      match barber.pinHash with
      | none => AuthResult.failure "PIN no configurado. Contacte al administrador."
      | some h =>
        if verifyPinHash h pin verify then AuthResult.success barber
        else AuthResult.failure "Credenciales inválidas"

/-- **C7**: an unknown alias and a wrong PIN against an existing barber's
stored hash produce the identical generic failure message, so the response
does not let a caller distinguish the two cases. -/
theorem C7_no_enumeration_signal (barbers : List Barber)
    (verify : String → String → Bool) (aliasIn pin : String)
    (hA : aliasIn ≠ "") (hP : pin ≠ "") :
    (findByAlias barbers (sanitizeAlias aliasIn) = none →
      AuthenticateBarber.execute barbers verify aliasIn pin =
        AuthResult.failure "Credenciales inválidas") ∧
    (∀ barber h, findByAlias barbers (sanitizeAlias aliasIn) = some barber →
      barber.pinHash = some h → verifyPinHash h pin verify = false →
      AuthenticateBarber.execute barbers verify aliasIn pin =
        AuthResult.failure "Credenciales inválidas") := by
  constructor
  · intro hnone
    simp [AuthenticateBarber.execute, hA, hP, hnone]
  · intro barber h hfound hhash hbad
    simp [AuthenticateBarber.execute, hA, hP, hfound, hhash, hbad]

/-- **C10**: when the alias does resolve to an active barber whose PIN hash
is unset, authentication fails with the distinct "PIN no configurado"
message rather than the generic one, so this response reveals that the
alias exists (and only active barbers are found by alias). -/
theorem C10_unset_pin_distinct_message (barbers : List Barber)
    (verify : String → String → Bool) (aliasIn pin : String)
    (hA : aliasIn ≠ "") (hP : pin ≠ "") (barber : Barber)
    (hfound : findByAlias barbers (sanitizeAlias aliasIn) = some barber)
    (hNoPin : barber.pinHash = none) :
    AuthenticateBarber.execute barbers verify aliasIn pin =
      AuthResult.failure "PIN no configurado. Contacte al administrador." ∧
    AuthResult.failure "PIN no configurado. Contacte al administrador." ≠
      (AuthResult.failure "Credenciales inválidas" : AuthResult) ∧
    barber.isActive = true := by
  refine ⟨?_, by decide, ?_⟩
  · simp [AuthenticateBarber.execute, hA, hP, hfound, hNoPin]
  · unfold findByAlias at hfound
    split at hfound
    next => exact absurd hfound (by simp)
    next =>
      have hmem := List.find?_some hfound
      rcases Bool.and_eq_true .. |>.mp hmem with ⟨_, hac⟩
      exact hac

/-- A barber whose PIN was never configured. -/
def bNoPin : Barber :=
  { id := "barber_miguel", name := "Miguel Angel", aliasName := "miguel",
    pinHash := none, isActive := true, workingHours := defaultWorkingHours }

/-- The directory used by the authentication witnesses. -/
def authDirectory : List Barber := [bCarlos, bNoPin]

/-- The verify capability used by the authentication witnesses: only the
pair ("1234", "hash1234") verifies. -/
def verifyW : String → String → Bool := fun pin h => pin = "1234" && h = "hash1234"

/-- Witness for `C7_no_enumeration_signal`: an unknown alias and a wrong
PIN for Carlos both yield exactly "Credenciales inválidas". -/
theorem C7_no_enumeration_signal_witness :
    AuthenticateBarber.execute authDirectory verifyW "alex" "9999" =
      AuthResult.failure "Credenciales inválidas" ∧
    AuthenticateBarber.execute authDirectory verifyW "carlos" "9999" =
      AuthResult.failure "Credenciales inválidas" :=
  ⟨(C7_no_enumeration_signal authDirectory verifyW "alex" "9999" (by decide) (by decide)).1
      (by decide),
   (C7_no_enumeration_signal authDirectory verifyW "carlos" "9999" (by decide) (by decide)).2
      bCarlos "hash1234" (by decide) rfl (by decide)⟩

/-- Witness for `C10_unset_pin_distinct_message` at Miguel, whose PIN hash
is unset. -/
theorem C10_unset_pin_distinct_message_witness :
    AuthenticateBarber.execute authDirectory verifyW "miguel" "9999" =
      AuthResult.failure "PIN no configurado. Contacte al administrador." :=
  (C10_unset_pin_distinct_message authDirectory verifyW "miguel" "9999"
    (by decide) (by decide) bNoPin (by decide) rfl).1

/-! ## Chat sessions, inactivity timers and the admin panel
(`WebhookHandler`, `AdminPanelHandler`)

Embedding notes:
* events carry pre-parsed payloads (the admin command's alias and PIN,
  selection ids, day/hour selections); text bodies stay raw strings;
* the timer map holds only ARMED deadlines — `clearTimeout` removes the
  entry, since a cleared JavaScript timeout is observationally gone;
* admin menu actions that only read state and send messages (today, week,
  stats, manage, block/unblock/complete/cancel dispatch) are collapsed
  into `AdminButton.otherBtn`: in the source none of them creates or
  deletes a session or a timer; the client-note persistence behind the
  note flow is likewise not modelled (no claim touches the notes table).
-/

/-- Association map keyed by phone number (a JavaScript `Map`), observed
only through lookups. -/
abbrev SMap (α : Type) := List (String × α)

/-- `Map.get`. -/
def lookupPhone {α : Type} (m : SMap α) (k : String) : Option α :=
  (m.find? (fun p => p.1 = k)).map (fun p => p.2)

/-- `Map.delete`. -/
def removePhone {α : Type} (m : SMap α) (k : String) : SMap α :=
  m.filter (fun p => !(decide (p.1 = k)))

/-- `Map.set`. -/
def putPhone {α : Type} (m : SMap α) (k : String) (v : α) : SMap α :=
  (k, v) :: removePhone m k

/-- The booking-flow step held in `#conversationState`. -/
inductive Step where
  | name
  | barber
  | service
  | date
  | time
deriving DecidableEq

/-- One customer conversation session. -/
structure ConvState where
  step : Step
  customerName : Option String
  barberId : Option String
  barberName : Option String
  serviceType : Option String
  date : Option Nat
deriving DecidableEq

/-- The state set by `#startScheduling`. -/
def freshConv : ConvState :=
  { step := Step.name, customerName := none, barberId := none,
    barberName := none, serviceType := none, date := none }

/-- Admin session sub-state. -/
inductive AdminState where
  | menu
  | waitingNote
deriving DecidableEq

/-- One entry of `#adminSessions`. -/
structure AdminSession where
  barber : Barber
  state : AdminState
  noteAppointmentId : Option String
  blockDate : Option Nat
deriving DecidableEq

/-- The webhook handler's mutable state plus the persistent store. -/
structure ChatSystem where
  conversationState : SMap ConvState
  conversationTimers : SMap Nat
  welcomedUsers : List String
  adminSessions : SMap AdminSession
  store : Store
deriving DecidableEq

/-- The fixed inactivity window (10 minutes, in this model's minutes). -/
def inactivityTimeoutMinutes : Nat := 10

/-- The outbound messages the handlers produce, by kind. -/
inductive Response where
  | welcomeMenu (phone : String)
  | namePrompt (phone : String)
  | nameLengthError (phone : String)
  | barberSelection (phone : String)
  | serviceSelection (phone : String)
  | dateSelection (phone : String)
  | timeSelection (phone : String)
  | inactivityNotice (phone : String)
  | authError (phone error : String)
  | adminMenu (phone : String)
  | adminExitNotice (phone : String)
  | notePrompt (phone : String)
  | noteSaved (phone : String)
  | adminInfo (phone : String)
  | appointmentInfo (phone : String)
  | slotTakenNotice (phone : String)
  | pastSlotNotice (phone : String)
  | bookingResult (phone : String)
  | cancelResult (phone : String)
  | errorNotice (phone : String)
deriving DecidableEq

/-- `#resetInactivityTimer`: clear any pending timer; arm a new one only
when a conversation session exists for the phone. -/
def resetInactivityTimer (sys : ChatSystem) (phone : String) (now : Nat) : ChatSystem :=
  if (lookupPhone sys.conversationState phone).isSome then
    { sys with conversationTimers :=
        putPhone sys.conversationTimers phone (now + inactivityTimeoutMinutes) }
  else
    { sys with conversationTimers := removePhone sys.conversationTimers phone }

/-- `#clearInactivityTimer` plus `#conversationState.delete`, the pair the
source performs on every terminal transition. -/
def dropConversation (sys : ChatSystem) (phone : String) : ChatSystem :=
  { sys with
      conversationState := removePhone sys.conversationState phone,
      conversationTimers := removePhone sys.conversationTimers phone }

/-- `#closeInactiveConversation`: delete the session, its timer and the
welcome flag, and send the closing notice. -/
def closeInactiveConversation (sys : ChatSystem) (phone : String) :
    ChatSystem × List Response :=
  if (lookupPhone sys.conversationState phone).isSome then
    ({ sys with
        conversationState := removePhone sys.conversationState phone,
        conversationTimers := removePhone sys.conversationTimers phone,
        welcomedUsers := sys.welcomedUsers.filter (fun p => !(decide (p = phone))) },
      [Response.inactivityNotice phone])
  else (sys, [])

/-- A timer firing at `now`: only an armed deadline that has passed has any
effect. -/
def fireInactivityTimer (sys : ChatSystem) (phone : String) (now : Nat) :
    ChatSystem × List Response :=
  match lookupPhone sys.conversationTimers phone with
  | some deadline =>
    if deadline ≤ now then closeInactiveConversation sys phone else (sys, [])
  | none => (sys, [])

/-- `text.trim().toLowerCase()`, the normalization `handleMessage` applies
to inbound text. -/
def normalizeText (s : String) : String :=
  String.mk ((trimChars s.toList).map Char.toLower)

/-- `AdminCommand.isAdminCommand`: the normalized text starts with
`"admin "`. -/
def isAdminCommandText (body : String) : Bool :=
  decide (((trimChars body.toList).map Char.toLower).take 6 = "admin ".toList)

/-- `AdminPanelHandler.handleCommand` after a successful parse: authenticate
and, on success, open a fresh `menu`-state session. -/
def AdminPanelHandler.handleCommand (sys : ChatSystem)
    (verify : String → String → Bool) (phone aliasIn pin : String) :
    ChatSystem × List Response :=
  match AuthenticateBarber.execute sys.store.barbers verify aliasIn pin with
  | AuthResult.failure err => (sys, [Response.authError phone err])
  | AuthResult.success barber =>
    ({ sys with
        adminSessions := putPhone sys.adminSessions phone
          ({ barber := barber, state := AdminState.menu,
             noteAppointmentId := none, blockDate := none }) },
      [Response.adminMenu phone])

/-- The admin panel buttons, by their effect on the session store:
`otherBtn` stands for every `adm_` button that reads and replies without
touching `#adminSessions` (today, week, stats, manage, appointment
actions, block/unblock/complete/cancel dispatch). -/
inductive AdminButton where
  | menuBtn
  | exitBtn
  | noteBtn (idPart : String)
  | blockDateBtn (day : Nat)
  | otherBtn
deriving DecidableEq

/-- `AdminPanelHandler.handleInteractiveResponse`: returns the new system,
the responses, and the `handled` flag (false iff no session exists). -/
def AdminPanelHandler.handleInteractiveResponse (sys : ChatSystem) (phone : String)
    (b : AdminButton) : ChatSystem × List Response × Bool :=
  match lookupPhone sys.adminSessions phone with
  | none => (sys, [], false)
  | some session =>
    match b with
    | AdminButton.menuBtn => (sys, [Response.adminMenu phone], true)
    | AdminButton.exitBtn =>
      ({ sys with adminSessions := removePhone sys.adminSessions phone },
        [Response.adminExitNotice phone], true)
    | AdminButton.noteBtn idPart =>
      ({ sys with
          adminSessions := putPhone sys.adminSessions phone
            ({ session with
               state := AdminState.waitingNote,
               noteAppointmentId := some idPart }) },
        [Response.notePrompt phone], true)
    | AdminButton.blockDateBtn day =>
      ({ sys with
          adminSessions := putPhone sys.adminSessions phone
            ({ session with blockDate := some day }) },
        [Response.adminInfo phone], true)
    | AdminButton.otherBtn => (sys, [Response.adminInfo phone], true)

/-- `AdminPanelHandler.handleTextMessage`: consumes free text only while a
session awaits a note ("cancelar" aborts back to the menu; anything else
is stored as the note and returns to the menu). -/
def AdminPanelHandler.handleTextMessage (sys : ChatSystem) (phone body : String) :
    ChatSystem × List Response × Bool :=
  match lookupPhone sys.adminSessions phone with
  | none => (sys, [], false)
  | some session =>
    if session.state = AdminState.waitingNote then
      if normalizeText body = "cancelar" then
        ({ sys with
            adminSessions := putPhone sys.adminSessions phone
              ({ session with state := AdminState.menu }) },
          [Response.adminMenu phone], true)
      else
        ({ sys with
            adminSessions := putPhone sys.adminSessions phone
              ({ session with state := AdminState.menu, noteAppointmentId := none }) },
          [Response.noteSaved phone], true)
    else (sys, [], false)

/-- `#startScheduling`: open a `name`-step session and (re)arm its timer. -/
def startScheduling (sys : ChatSystem) (phone : String) (now : Nat) :
    ChatSystem × List Response :=
  (resetInactivityTimer
    { sys with conversationState := putPhone sys.conversationState phone freshConv }
    phone now,
    [Response.namePrompt phone])

/-- `ListAppointments.execute`: at most the phone's single active
appointment. -/
def listAppointments (apts : List Appointment) (now : Nat) (phone : String) :
    List Appointment :=
  match findByPhone apts phone with
  | none => []
  | some a =>
    if a.status = Status.cancelled ∨ a.dateTime < now then [] else [a]

/-- `#handleCancel` via `CancelAppointment.execute`: id-part lookup,
ownership and not-already-cancelled checks, then `cancel()` + `save`;
a thrown error is caught at the message boundary. -/
def handleCancel (sys : ChatSystem) (phone idPart : String) (now : Nat) :
    ChatSystem × List Response :=
  match (listAppointments sys.store.appointments now phone).find?
      (fun a => a.id.startsWith idPart) with
  | none => (sys, [Response.cancelResult phone])
  | some apt =>
    match findById sys.store.appointments apt.id with
    | none => (sys, [Response.cancelResult phone])
    | some a =>
      if a.phoneNumber ≠ phone then (sys, [Response.cancelResult phone])
      else if a.status = Status.cancelled then (sys, [Response.cancelResult phone])
      else
        match a.cancel with
        | Except.error _ => (sys, [Response.errorNotice phone])
        | Except.ok a2 =>
          match save sys.store.appointments a2 with
          | Except.error _ => (sys, [Response.errorNotice phone])
          | Except.ok apts2 =>
            ({ sys with store := { sys.store with appointments := apts2 } },
              [Response.cancelResult phone])

/-- `#handleConversationFlow` on text input: the `name` step validates the
2–100 length and advances to `barber`; text at any other step abandons the
session (delete state, clear timer, welcome menu). -/
def handleConversationFlow (sys : ChatSystem) (phone bodyLower : String)
    (st : ConvState) : ChatSystem × List Response :=
  if st.step = Step.name then
    if bodyLower.length < 2 ∨ 100 < bodyLower.length then
      (sys, [Response.nameLengthError phone])
    else
      ({ sys with
          conversationState := putPhone sys.conversationState phone
            ({ st with customerName := some bodyLower, step := Step.barber }) },
        [Response.barberSelection phone])
  else
    (dropConversation sys phone, [Response.welcomeMenu phone])

/-- The text pipeline after the admin-command branch: note input for an
admin session awaiting one, then in-conversation handling, then the
stateless commands. -/
def handleTextRouted (sys : ChatSystem) (phone body : String) (now : Nat) :
    ChatSystem × List Response :=
  if (AdminPanelHandler.handleTextMessage sys phone body).2.2 = true then
    ((AdminPanelHandler.handleTextMessage sys phone body).1,
      (AdminPanelHandler.handleTextMessage sys phone body).2.1)
  else
    match lookupPhone sys.conversationState phone with
    | some st =>
      if normalizeText body = "menu" ∨ normalizeText body = "inicio" ∨
          normalizeText body = "salir" then
        (dropConversation sys phone, [Response.welcomeMenu phone])
      else handleConversationFlow sys phone (normalizeText body) st
    | none =>
      if !(sys.welcomedUsers.contains phone) then
        ({ sys with welcomedUsers := phone :: sys.welcomedUsers },
          [Response.welcomeMenu phone])
      else if normalizeText body = "hola" ∨ normalizeText body = "menu" ∨
          normalizeText body = "inicio" then
        (sys, [Response.welcomeMenu phone])
      else if normalizeText body = "agendar" ∨ normalizeText body = "1" then
        startScheduling sys phone now
      else if normalizeText body = "citas" ∨ normalizeText body = "mi cita" ∨
          normalizeText body = "2" then
        (sys, [Response.appointmentInfo phone])
      else if (normalizeText body).startsWith "cancelar " then
        handleCancel sys phone (String.mk (trimChars ((normalizeText body).drop 9).toList)) now
      else (sys, [Response.welcomeMenu phone])

/-- The text branch of `handleMessage`. A text that LOOKS like an admin
command but failed to parse (the parsed ones arrive as `Event.adminCmd`)
still clears the conversation state and timer before falling through to
normal routing, exactly as the source does. -/
def handleText (sys : ChatSystem) (phone body : String) (now : Nat) :
    ChatSystem × List Response :=
  if isAdminCommandText body then
    handleTextRouted (dropConversation sys phone) phone body now
  else
    handleTextRouted sys phone body now

/-- The customer-facing interactive buttons. -/
inductive CustomerButton where
  | btnMenu
  | btnAgendar
  | btnVerCitas
  | btnCancel (idPart : String)
  | barberSel (barberId : String)
  | serviceSel (serviceId : String)
  | dateSel (day : Nat)
  | timeSel (hour : Nat)
deriving DecidableEq

/-- The `srv_` button-id to service-type mapping. -/
def serviceMap (serviceId : String) : Option String :=
  if serviceId = "srv_corte" then some "corte"
  else if serviceId = "srv_barba" then some "barba"
  else if serviceId = "srv_corte_barba" then some "corte_barba"
  else none

/-- `#handleInteractiveResponse` for the customer buttons. The committed
time selection clears the session and timer BEFORE running
`ScheduleAppointment.execute`. -/
def handleCustomerButton (sys : ChatSystem) (phone : String) (b : CustomerButton)
    (now : Nat) (newId : String) : ChatSystem × List Response :=
  match b with
  | CustomerButton.btnAgendar => startScheduling sys phone now
  | CustomerButton.btnVerCitas => (sys, [Response.appointmentInfo phone])
  | CustomerButton.btnMenu =>
    (dropConversation sys phone, [Response.welcomeMenu phone])
  | CustomerButton.btnCancel idPart => handleCancel sys phone idPart now
  | CustomerButton.barberSel barberId =>
    match lookupPhone sys.conversationState phone with
    | none => startScheduling sys phone now
    | some st =>
      if st.step ≠ Step.barber then startScheduling sys phone now
      else
        match findBarberById sys.store.barbers barberId with
        | none => (sys, [Response.barberSelection phone])
        | some barber =>
          ({ sys with
              conversationState := putPhone sys.conversationState phone
                ({ st with
                   barberId := some barberId, barberName := some barber.name,
                   step := Step.service }) },
            [Response.serviceSelection phone])
  | CustomerButton.serviceSel serviceId =>
    match lookupPhone sys.conversationState phone with
    | none => startScheduling sys phone now
    | some st =>
      if st.step ≠ Step.service then startScheduling sys phone now
      else
        match serviceMap serviceId with
        | none => (sys, [Response.serviceSelection phone])
        | some srv =>
          ({ sys with
              conversationState := putPhone sys.conversationState phone
                ({ st with serviceType := some srv, step := Step.date }) },
            [Response.dateSelection phone])
  | CustomerButton.dateSel day =>
    match lookupPhone sys.conversationState phone with
    | none => startScheduling sys phone now
    | some st =>
      if st.step ≠ Step.date then startScheduling sys phone now
      else
        ({ sys with
            conversationState := putPhone sys.conversationState phone
              ({ st with date := some day, step := Step.time }) },
          [Response.timeSelection phone])
  | CustomerButton.timeSel hour =>
    match lookupPhone sys.conversationState phone with
    | none => startScheduling sys phone now
    | some st =>
      if st.step ≠ Step.time then startScheduling sys phone now
      else
        match st.date with
        | none => (sys, [Response.errorNotice phone])
        | some day =>
          if day * minutesPerDay + hour * 60 ≤ now then
            (dropConversation sys phone, [Response.pastSlotNotice phone])
          else if isSlotAvailable sys.store.appointments (st.barberId.getD "")
              (day * minutesPerDay + hour * 60) = false then
            (sys, [Response.slotTakenNotice phone, Response.timeSelection phone])
          else
            ({ dropConversation sys phone with
                store := { sys.store with appointments :=
                    (ScheduleAppointment.execute sys.store.appointments now newId
                      { phoneNumber := phone,
                        customerName := st.customerName.getD "",
                        barberId := st.barberId.getD "",
                        serviceType := st.serviceType.getD "",
                        dateTime := day * minutesPerDay + hour * 60,
                        skipActiveCheck := false }).1 } },
              [Response.bookingResult phone])

/-- One inbound event for the system: a plain text, a parsed admin command,
a customer button, an admin button, or an inactivity-timer firing. -/
inductive Event where
  | text (phone body : String)
  | adminCmd (phone aliasIn pin : String)
  | button (phone : String) (b : CustomerButton)
  | adminButton (phone : String) (b : AdminButton)
  | timerExpire (phone : String)
deriving DecidableEq

/-- The phone number an event belongs to. -/
def eventPhone : Event → String
  | Event.text p _ => p
  | Event.adminCmd p _ _ => p
  | Event.button p _ => p
  | Event.adminButton p _ => p
  | Event.timerExpire p => p

/-- Whether the event is an inbound chat message (everything except a timer
firing). -/
def isInboundMessage : Event → Bool
  | Event.timerExpire _ => false
  | _ => true

/-- `WebhookHandler.handleMessage` / the timer callback: every inbound
message first resets the phone's inactivity timer, then routes. A parsed
admin command clears the conversation before authenticating. An `adm_`
button not handled (no session) falls through to the default welcome. -/
def handleEvent (sys : ChatSystem) (verify : String → String → Bool) (newId : String)
    (now : Nat) (e : Event) : ChatSystem × List Response :=
  match e with
  | Event.timerExpire phone => fireInactivityTimer sys phone now
  | Event.text phone body =>
    handleText (resetInactivityTimer sys phone now) phone body now
  | Event.adminCmd phone aliasIn pin =>
    AdminPanelHandler.handleCommand
      (dropConversation (resetInactivityTimer sys phone now) phone) verify phone aliasIn pin
  | Event.button phone b =>
    handleCustomerButton (resetInactivityTimer sys phone now) phone b now newId
  | Event.adminButton phone b =>
    if (AdminPanelHandler.handleInteractiveResponse
        (resetInactivityTimer sys phone now) phone b).2.2 = true then
      ((AdminPanelHandler.handleInteractiveResponse
          (resetInactivityTimer sys phone now) phone b).1,
        (AdminPanelHandler.handleInteractiveResponse
          (resetInactivityTimer sys phone now) phone b).2.1)
    else
      ((AdminPanelHandler.handleInteractiveResponse
          (resetInactivityTimer sys phone now) phone b).1,
        [Response.welcomeMenu phone])

theorem find?_filter_of_ne {α : Type} (l : List (String × α)) (k k2 : String)
    (h : k2 ≠ k) :
    (l.filter (fun p => !(decide (p.1 = k)))).find? (fun p => p.1 = k2) =
      l.find? (fun p => p.1 = k2) := by
  induction l with
  | nil => rfl
  | cons p t ih =>
    by_cases hp2 : p.1 = k2
    · have hpk : ¬ p.1 = k := fun hk => h (hp2 ▸ hk ▸ rfl)
      rw [List.filter_cons, if_pos (by simpa using hpk),
        List.find?_cons_of_pos _ (by simpa using hp2),
        List.find?_cons_of_pos _ (by simpa using hp2)]
    · by_cases hpk : p.1 = k
      · rw [List.filter_cons, if_neg (by simpa using hpk), ih,
          List.find?_cons_of_neg _ (by simpa using hp2)]
      · rw [List.filter_cons, if_pos (by simpa using hpk),
          List.find?_cons_of_neg _ (by simpa using hp2),
          List.find?_cons_of_neg _ (by simpa using hp2), ih]

theorem lookupPhone_putPhone_self {α : Type} (m : SMap α) (k : String) (v : α) :
    lookupPhone (putPhone m k v) k = some v := by
  unfold lookupPhone putPhone
  rw [List.find?_cons_of_pos _ (by simp)]
  rfl

theorem lookupPhone_removePhone_self {α : Type} (m : SMap α) (k : String) :
    lookupPhone (removePhone m k) k = none := by
  unfold lookupPhone removePhone
  rw [List.find?_eq_none.mpr]
  · rfl
  · intro x hx
    have hmem := (List.mem_filter.mp hx).2
    simpa using hmem

theorem lookupPhone_removePhone_ne {α : Type} (m : SMap α) (k k2 : String)
    (h : k2 ≠ k) :
    lookupPhone (removePhone m k) k2 = lookupPhone m k2 := by
  unfold lookupPhone removePhone
  rw [find?_filter_of_ne m k k2 h]

theorem lookupPhone_putPhone_ne {α : Type} (m : SMap α) (k k2 : String) (v : α)
    (h : k2 ≠ k) :
    lookupPhone (putPhone m k v) k2 = lookupPhone m k2 := by
  unfold lookupPhone putPhone
  rw [List.find?_cons_of_neg _ (by simpa using Ne.symm h)]
  exact congrArg (Option.map _) (find?_filter_of_ne m k k2 h)

theorem contains_filter_self (l : List String) (k : String) :
    (l.filter (fun p => !(decide (p = k)))).contains k = false := by
  simp only [List.contains, List.elem_eq_mem, decide_eq_false_iff_not]
  intro hmem
  have h2 := (List.mem_filter.mp hmem).2
  simp at h2

/-- The invariant behind the timer-reset claim: whenever the phone's
conversation session is open, its timer is armed for exactly
`now + inactivityTimeoutMinutes`. -/
def TimerFresh (sys : ChatSystem) (phone : String) (now : Nat) : Prop :=
  (lookupPhone sys.conversationState phone).isSome = true →
    lookupPhone sys.conversationTimers phone = some (now + inactivityTimeoutMinutes)

theorem timerFresh_of_conv_none {sys : ChatSystem} {phone : String} (now : Nat)
    (h : lookupPhone sys.conversationState phone = none) : TimerFresh sys phone now := by
  intro hsome
  rw [h] at hsome
  simp at hsome

theorem timerFresh_reset (sys : ChatSystem) (phone : String) (now : Nat) :
    TimerFresh (resetInactivityTimer sys phone now) phone now := by
  unfold TimerFresh resetInactivityTimer
  split
  · intro _
    exact lookupPhone_putPhone_self _ _ _
  next hcond =>
    intro hsome
    exact absurd hsome hcond

theorem timerFresh_dropConversation (sys : ChatSystem) (phone : String) (now : Nat) :
    TimerFresh (dropConversation sys phone) phone now :=
  timerFresh_of_conv_none now (lookupPhone_removePhone_self _ _)

theorem timerFresh_startScheduling (sys : ChatSystem) (phone : String) (now : Nat) :
    TimerFresh (startScheduling sys phone now).1 phone now :=
  timerFresh_reset _ _ _

theorem timerFresh_handleTextMessage (sys : ChatSystem) (phone body : String) (now : Nat)
    (h : TimerFresh sys phone now) :
    TimerFresh (AdminPanelHandler.handleTextMessage sys phone body).1 phone now := by
  unfold AdminPanelHandler.handleTextMessage
  split
  · exact h
  · split
    · split
      · exact h
      · exact h
    · exact h

theorem timerFresh_handleCancel (sys : ChatSystem) (phone idPart : String) (now now2 : Nat)
    (h : TimerFresh sys phone now) :
    TimerFresh (handleCancel sys phone idPart now2).1 phone now := by
  unfold handleCancel
  split
  · exact h
  · split
    · exact h
    · split
      · exact h
      · split
        · exact h
        · split
          · exact h
          · split
            · exact h
            · exact h

theorem timerFresh_handleConversationFlow (sys : ChatSystem) (phone body : String)
    (st : ConvState) (now : Nat) (h : TimerFresh sys phone now)
    (hs : (lookupPhone sys.conversationState phone).isSome = true) :
    TimerFresh (handleConversationFlow sys phone body st).1 phone now := by
  unfold handleConversationFlow
  split
  · split
    · exact h
    · intro _
      exact h hs
  · exact timerFresh_dropConversation sys phone now

theorem timerFresh_handleTextRouted (sys : ChatSystem) (phone body : String) (now : Nat)
    (h : TimerFresh sys phone now) :
    TimerFresh (handleTextRouted sys phone body now).1 phone now := by
  unfold handleTextRouted
  split
  · exact timerFresh_handleTextMessage sys phone body now h
  · split
    next st heq =>
      split
      · exact timerFresh_dropConversation sys phone now
      · exact timerFresh_handleConversationFlow sys phone _ st now h (by rw [heq]; rfl)
    next heq =>
      split
      · exact timerFresh_of_conv_none now heq
      · split
        · exact h
        · split
          · exact timerFresh_startScheduling sys phone now
          · split
            · exact h
            · split
              · exact timerFresh_handleCancel sys phone _ now now h
              · exact h

theorem timerFresh_handleText (sys : ChatSystem) (phone body : String) (now : Nat)
    (h : TimerFresh sys phone now) :
    TimerFresh (handleText sys phone body now).1 phone now := by
  unfold handleText
  split
  · exact timerFresh_handleTextRouted _ phone body now (timerFresh_dropConversation sys phone now)
  · exact timerFresh_handleTextRouted sys phone body now h

theorem timerFresh_handleCommand (sys : ChatSystem) (verify : String → String → Bool)
    (phone aliasIn pin : String) (now : Nat) (h : TimerFresh sys phone now) :
    TimerFresh (AdminPanelHandler.handleCommand sys verify phone aliasIn pin).1 phone now := by
  unfold AdminPanelHandler.handleCommand
  split
  · exact h
  · exact h

theorem timerFresh_handleAdminButton (sys : ChatSystem) (phone : String) (b : AdminButton)
    (now : Nat) (h : TimerFresh sys phone now) :
    TimerFresh (AdminPanelHandler.handleInteractiveResponse sys phone b).1 phone now := by
  unfold AdminPanelHandler.handleInteractiveResponse
  split
  · exact h
  · split
    · exact h
    · exact h
    · exact h
    · exact h
    · exact h

theorem timerFresh_handleCustomerButton (sys : ChatSystem) (phone : String)
    (b : CustomerButton) (now : Nat) (newId : String) (h : TimerFresh sys phone now) :
    TimerFresh (handleCustomerButton sys phone b now newId).1 phone now := by
  cases b with
  | btnMenu => exact timerFresh_dropConversation sys phone now
  | btnAgendar => exact timerFresh_startScheduling sys phone now
  | btnVerCitas => exact h
  | btnCancel idPart => exact timerFresh_handleCancel sys phone idPart now now h
  | barberSel barberId =>
    simp only [handleCustomerButton]
    split
    next heq => exact timerFresh_startScheduling sys phone now
    next st heq =>
      split
      · exact timerFresh_startScheduling sys phone now
      · split
        · exact h
        · intro _
          exact h (by rw [heq]; rfl)
  | serviceSel serviceId =>
    simp only [handleCustomerButton]
    split
    next heq => exact timerFresh_startScheduling sys phone now
    next st heq =>
      split
      · exact timerFresh_startScheduling sys phone now
      · split
        · exact h
        · intro _
          exact h (by rw [heq]; rfl)
  | dateSel day =>
    simp only [handleCustomerButton]
    split
    next heq => exact timerFresh_startScheduling sys phone now
    next st heq =>
      split
      · exact timerFresh_startScheduling sys phone now
      · intro _
        exact h (by rw [heq]; rfl)
  | timeSel hour =>
    simp only [handleCustomerButton]
    split
    next heq => exact timerFresh_startScheduling sys phone now
    next st heq =>
      split
      · exact timerFresh_startScheduling sys phone now
      · split
        · exact h
        · split
          · exact timerFresh_dropConversation sys phone now
          · split
            · exact h
            · exact timerFresh_of_conv_none now (lookupPhone_removePhone_self _ _)

theorem timerFresh_handleEvent (sys : ChatSystem) (verify : String → String → Bool)
    (newId : String) (now : Nat) (e : Event) (phone : String)
    (hp : eventPhone e = phone) (hi : isInboundMessage e = true) :
    TimerFresh (handleEvent sys verify newId now e).1 phone now := by
  cases e with
  | timerExpire p => simp [isInboundMessage] at hi
  | text p body =>
    cases hp
    exact timerFresh_handleText _ p body now (timerFresh_reset sys p now)
  | adminCmd p a pi =>
    cases hp
    exact timerFresh_handleCommand _ verify p a pi now
      (timerFresh_dropConversation (resetInactivityTimer sys p now) p now)
  | button p b =>
    cases hp
    exact timerFresh_handleCustomerButton _ p b now newId (timerFresh_reset sys p now)
  | adminButton p b =>
    cases hp
    simp only [handleEvent]
    split
    · exact timerFresh_handleAdminButton _ p b now (timerFresh_reset sys p now)
    · exact timerFresh_handleAdminButton _ p b now (timerFresh_reset sys p now)

theorem reset_conversationState (sys : ChatSystem) (p : String) (now : Nat) :
    (resetInactivityTimer sys p now).conversationState = sys.conversationState := by
  unfold resetInactivityTimer
  split <;> rfl

theorem reset_adminSessions (sys : ChatSystem) (p : String) (now : Nat) :
    (resetInactivityTimer sys p now).adminSessions = sys.adminSessions := by
  unfold resetInactivityTimer
  split <;> rfl

theorem reset_store (sys : ChatSystem) (p : String) (now : Nat) :
    (resetInactivityTimer sys p now).store = sys.store := by
  unfold resetInactivityTimer
  split <;> rfl

theorem reset_welcomedUsers (sys : ChatSystem) (p : String) (now : Nat) :
    (resetInactivityTimer sys p now).welcomedUsers = sys.welcomedUsers := by
  unfold resetInactivityTimer
  split <;> rfl

theorem fire_adminSessions (sys : ChatSystem) (p : String) (now : Nat) :
    (fireInactivityTimer sys p now).1.adminSessions = sys.adminSessions := by
  unfold fireInactivityTimer closeInactiveConversation
  split
  · split
    · split <;> rfl
    · rfl
  · rfl

/-- The phone has an open admin session. -/
def AdminOpen (sys : ChatSystem) (phone : String) : Prop :=
  (lookupPhone sys.adminSessions phone).isSome = true

theorem adminOpen_put (m : SMap AdminSession) (p phone2 : String) (v : AdminSession)
    (h : (lookupPhone m phone2).isSome = true) :
    (lookupPhone (putPhone m p v) phone2).isSome = true := by
  by_cases hp : phone2 = p
  · subst hp
    rw [lookupPhone_putPhone_self]
    rfl
  · rw [lookupPhone_putPhone_ne _ _ _ _ hp]
    exact h

theorem adminOpen_reset (sys : ChatSystem) (p : String) (now : Nat) (phone2 : String)
    (h : AdminOpen sys phone2) : AdminOpen (resetInactivityTimer sys p now) phone2 := by
  unfold AdminOpen
  rw [reset_adminSessions]
  exact h

theorem adminOpen_handleTextMessage (sys : ChatSystem) (p body phone2 : String)
    (h : AdminOpen sys phone2) :
    AdminOpen (AdminPanelHandler.handleTextMessage sys p body).1 phone2 := by
  unfold AdminPanelHandler.handleTextMessage
  split
  · exact h
  · split
    · split
      · exact adminOpen_put _ p phone2 _ h
      · exact adminOpen_put _ p phone2 _ h
    · exact h

theorem adminOpen_handleCancel (sys : ChatSystem) (p idPart : String) (now : Nat)
    (phone2 : String) (h : AdminOpen sys phone2) :
    AdminOpen (handleCancel sys p idPart now).1 phone2 := by
  unfold handleCancel
  split
  · exact h
  · split
    · exact h
    · split
      · exact h
      · split
        · exact h
        · split
          · exact h
          · split
            · exact h
            · exact h

theorem adminOpen_startScheduling (sys : ChatSystem) (p : String) (now : Nat)
    (phone2 : String) (h : AdminOpen sys phone2) :
    AdminOpen (startScheduling sys p now).1 phone2 :=
  adminOpen_reset _ p now phone2 h

theorem adminOpen_handleConversationFlow (sys : ChatSystem) (p body : String)
    (st : ConvState) (phone2 : String) (h : AdminOpen sys phone2) :
    AdminOpen (handleConversationFlow sys p body st).1 phone2 := by
  unfold handleConversationFlow
  split
  · split
    · exact h
    · exact h
  · exact h

theorem adminOpen_handleTextRouted (sys : ChatSystem) (p body : String) (now : Nat)
    (phone2 : String) (h : AdminOpen sys phone2) :
    AdminOpen (handleTextRouted sys p body now).1 phone2 := by
  unfold handleTextRouted
  split
  · exact adminOpen_handleTextMessage sys p body phone2 h
  · split
    · split
      · exact h
      · exact adminOpen_handleConversationFlow sys p _ _ phone2 h
    · split
      · exact h
      · split
        · exact h
        · split
          · exact adminOpen_startScheduling sys p now phone2 h
          · split
            · exact h
            · split
              · exact adminOpen_handleCancel sys p _ now phone2 h
              · exact h

theorem adminOpen_handleText (sys : ChatSystem) (p body : String) (now : Nat)
    (phone2 : String) (h : AdminOpen sys phone2) :
    AdminOpen (handleText sys p body now).1 phone2 := by
  unfold handleText
  split
  · exact adminOpen_handleTextRouted _ p body now phone2 h
  · exact adminOpen_handleTextRouted sys p body now phone2 h

theorem adminOpen_handleCommand (sys : ChatSystem) (verify : String → String → Bool)
    (p aliasIn pin phone2 : String) (h : AdminOpen sys phone2) :
    AdminOpen (AdminPanelHandler.handleCommand sys verify p aliasIn pin).1 phone2 := by
  unfold AdminPanelHandler.handleCommand
  split
  · exact h
  · exact adminOpen_put _ p phone2 _ h

theorem adminOpen_handleCustomerButton (sys : ChatSystem) (p : String)
    (b : CustomerButton) (now : Nat) (newId : String) (phone2 : String)
    (h : AdminOpen sys phone2) :
    AdminOpen (handleCustomerButton sys p b now newId).1 phone2 := by
  cases b with
  | btnMenu => exact h
  | btnAgendar => exact adminOpen_startScheduling sys p now phone2 h
  | btnVerCitas => exact h
  | btnCancel idPart => exact adminOpen_handleCancel sys p idPart now phone2 h
  | barberSel barberId =>
    simp only [handleCustomerButton]
    split
    · exact adminOpen_startScheduling sys p now phone2 h
    · split
      · exact adminOpen_startScheduling sys p now phone2 h
      · split
        · exact h
        · exact h
  | serviceSel serviceId =>
    simp only [handleCustomerButton]
    split
    · exact adminOpen_startScheduling sys p now phone2 h
    · split
      · exact adminOpen_startScheduling sys p now phone2 h
      · split
        · exact h
        · exact h
  | dateSel day =>
    simp only [handleCustomerButton]
    split
    · exact adminOpen_startScheduling sys p now phone2 h
    · split
      · exact adminOpen_startScheduling sys p now phone2 h
      · exact h
  | timeSel hour =>
    simp only [handleCustomerButton]
    split
    · exact adminOpen_startScheduling sys p now phone2 h
    · split
      · exact adminOpen_startScheduling sys p now phone2 h
      · split
        · exact h
        · split
          · exact h
          · split
            · exact h
            · exact h

theorem adminOpen_handleAdminButton (sys : ChatSystem) (p : String) (b : AdminButton)
    (phone2 : String) (h : AdminOpen sys phone2)
    (hne : ¬(p = phone2 ∧ b = AdminButton.exitBtn)) :
    AdminOpen (AdminPanelHandler.handleInteractiveResponse sys p b).1 phone2 := by
  unfold AdminPanelHandler.handleInteractiveResponse
  split
  · exact h
  · split
    · exact h
    · -- exitBtn: only reachable here with p ≠ phone2
      have hp : ¬ phone2 = p := by
        intro hp2
        exact hne ⟨hp2.symm, rfl⟩
      unfold AdminOpen
      show (lookupPhone (removePhone sys.adminSessions p) phone2).isSome = true
      rw [lookupPhone_removePhone_ne _ _ _ hp]
      exact h
    · exact adminOpen_put _ p phone2 _ h
    · exact adminOpen_put _ p phone2 _ h
    · exact h

theorem adminOpen_handleEvent (sys : ChatSystem) (verify : String → String → Bool)
    (newId : String) (now : Nat) (e : Event) (phone2 : String)
    (h : AdminOpen sys phone2)
    (hne : e ≠ Event.adminButton phone2 AdminButton.exitBtn) :
    AdminOpen (handleEvent sys verify newId now e).1 phone2 := by
  cases e with
  | timerExpire p =>
    unfold AdminOpen
    show (lookupPhone (fireInactivityTimer sys p now).1.adminSessions phone2).isSome = true
    rw [fire_adminSessions]
    exact h
  | text p body =>
    exact adminOpen_handleText _ p body now phone2 (adminOpen_reset sys p now phone2 h)
  | adminCmd p a pi =>
    exact adminOpen_handleCommand _ verify p a pi phone2
      (adminOpen_reset sys p now phone2 h)
  | button p b =>
    exact adminOpen_handleCustomerButton _ p b now newId phone2
      (adminOpen_reset sys p now phone2 h)
  | adminButton p b =>
    have hpb : ¬(p = phone2 ∧ b = AdminButton.exitBtn) := by
      intro ⟨h1, h2⟩
      exact hne (by rw [h1, h2])
    simp only [handleEvent]
    split
    · exact adminOpen_handleAdminButton _ p b phone2
        (adminOpen_reset sys p now phone2 h) hpb
    · exact adminOpen_handleAdminButton _ p b phone2
        (adminOpen_reset sys p now phone2 h) hpb

theorem reset_of_conv_none (sys : ChatSystem) (p : String) (now : Nat)
    (h : lookupPhone sys.conversationState p = none) :
    resetInactivityTimer sys p now =
      { sys with conversationTimers := removePhone sys.conversationTimers p } := by
  unfold resetInactivityTimer
  rw [if_neg (by rw [h]; simp)]

theorem handleTextRouted_greeting (sys : ChatSystem) (phone body : String) (now : Nat)
    (hconvN : lookupPhone sys.conversationState phone = none)
    (hadminN : lookupPhone sys.adminSessions phone = none)
    (hwelc : sys.welcomedUsers.contains phone = false) :
    (handleTextRouted sys phone body now).2 = [Response.welcomeMenu phone] ∧
    (handleTextRouted sys phone body now).1.conversationState = sys.conversationState := by
  have htm : AdminPanelHandler.handleTextMessage sys phone body = (sys, [], false) := by
    unfold AdminPanelHandler.handleTextMessage
    rw [hadminN]
  have hnotmem : phone ∉ sys.welcomedUsers := by
    simpa [List.contains, List.elem_eq_mem] using hwelc
  constructor <;>
    simp [handleTextRouted, htm, hconvN, hnotmem]

theorem handleText_greeting (sys : ChatSystem) (phone body : String) (now : Nat)
    (hconvN : lookupPhone sys.conversationState phone = none)
    (hadminN : lookupPhone sys.adminSessions phone = none)
    (hwelc : sys.welcomedUsers.contains phone = false) :
    (handleText sys phone body now).2 = [Response.welcomeMenu phone] ∧
    lookupPhone (handleText sys phone body now).1.conversationState phone = none := by
  unfold handleText
  split
  · have h1 := handleTextRouted_greeting (dropConversation sys phone) phone body now
      (lookupPhone_removePhone_self _ _) hadminN hwelc
    refine ⟨h1.1, ?_⟩
    rw [h1.2]
    exact lookupPhone_removePhone_self _ _
  · have h1 := handleTextRouted_greeting sys phone body now hconvN hadminN hwelc
    refine ⟨h1.1, ?_⟩
    rw [h1.2]
    exact hconvN

theorem expiry_closes_and_regreets (sys : ChatSystem) (verify : String → String → Bool)
    (newId phone : String) (now d : Nat)
    (ht : lookupPhone sys.conversationTimers phone = some d) (hd : d ≤ now)
    (hconv : (lookupPhone sys.conversationState phone).isSome = true)
    (hadmin : lookupPhone sys.adminSessions phone = none) :
    lookupPhone (fireInactivityTimer sys phone now).1.conversationState phone = none ∧
    lookupPhone (fireInactivityTimer sys phone now).1.conversationTimers phone = none ∧
    (fireInactivityTimer sys phone now).1.welcomedUsers.contains phone = false ∧
    ∀ body now2,
      (handleEvent (fireInactivityTimer sys phone now).1 verify newId now2
        (Event.text phone body)).2 = [Response.welcomeMenu phone] ∧
      lookupPhone (handleEvent (fireInactivityTimer sys phone now).1 verify newId now2
        (Event.text phone body)).1.conversationState phone = none := by
  have hfire : (fireInactivityTimer sys phone now).1 =
      { sys with
          conversationState := removePhone sys.conversationState phone,
          conversationTimers := removePhone sys.conversationTimers phone,
          welcomedUsers := sys.welcomedUsers.filter (fun p => !(decide (p = phone))) } := by
    simp [fireInactivityTimer, closeInactiveConversation, ht, hd, hconv]
  rw [hfire]
  refine ⟨?_, ?_, ?_, ?_⟩
  · show lookupPhone (removePhone sys.conversationState phone) phone = none
    exact lookupPhone_removePhone_self _ _
  · show lookupPhone (removePhone sys.conversationTimers phone) phone = none
    exact lookupPhone_removePhone_self _ _
  · show (sys.welcomedUsers.filter (fun p => !(decide (p = phone)))).contains phone = false
    exact contains_filter_self _ _
  · intro body now2
    simp only [handleEvent]
    rw [reset_of_conv_none _ phone now2 (lookupPhone_removePhone_self _ _)]
    exact handleText_greeting _ phone body now2 (lookupPhone_removePhone_self _ _)
      hadmin (contains_filter_self _ _)

theorem abandon_word_clears (sys : ChatSystem) (verify : String → String → Bool)
    (newId phone : String) (now : Nat) (st : ConvState) (w : String)
    (hconv : lookupPhone sys.conversationState phone = some st)
    (hadmin : lookupPhone sys.adminSessions phone = none)
    (hw : w = "menu" ∨ w = "inicio" ∨ w = "salir") :
    lookupPhone (handleEvent sys verify newId now
      (Event.text phone w)).1.conversationState phone = none ∧
    lookupPhone (handleEvent sys verify newId now
      (Event.text phone w)).1.conversationTimers phone = none := by
  have hnadmin : isAdminCommandText w = false := by
    rcases hw with rfl | rfl | rfl <;> decide
  have hnorm : normalizeText w = "menu" ∨ normalizeText w = "inicio" ∨
      normalizeText w = "salir" := by
    rcases hw with rfl | rfl | rfl
    · exact Or.inl (by decide)
    · exact Or.inr (Or.inl (by decide))
    · exact Or.inr (Or.inr (by decide))
  constructor <;>
    rcases hnorm with h | h | h <;>
      simp [handleEvent, handleText, handleTextRouted,
        AdminPanelHandler.handleTextMessage, hnadmin, reset_adminSessions, hadmin,
        reset_conversationState, hconv, h, dropConversation, lookupPhone_removePhone_self]

theorem btnMenu_clears (sys : ChatSystem) (verify : String → String → Bool)
    (newId phone : String) (now : Nat) :
    lookupPhone (handleEvent sys verify newId now
      (Event.button phone CustomerButton.btnMenu)).1.conversationState phone = none ∧
    lookupPhone (handleEvent sys verify newId now
      (Event.button phone CustomerButton.btnMenu)).1.conversationTimers phone = none := by
  constructor <;>
    simp [handleEvent, handleCustomerButton, dropConversation, lookupPhone_removePhone_self]

theorem commit_clears (sys : ChatSystem) (verify : String → String → Bool)
    (newId phone : String) (now : Nat) (st : ConvState) (day hour : Nat)
    (hconv : lookupPhone sys.conversationState phone = some st)
    (hstep : st.step = Step.time) (hdate : st.date = some day)
    (hfuture : now < day * minutesPerDay + hour * 60)
    (havail : isSlotAvailable sys.store.appointments (st.barberId.getD "")
      (day * minutesPerDay + hour * 60) = true) :
    lookupPhone (handleEvent sys verify newId now
      (Event.button phone (CustomerButton.timeSel hour))).1.conversationState phone = none ∧
    lookupPhone (handleEvent sys verify newId now
      (Event.button phone (CustomerButton.timeSel hour))).1.conversationTimers phone = none := by
  have hnle : ¬ (day * minutesPerDay + hour * 60 ≤ now) := by omega
  constructor <;>
    simp [handleEvent, handleCustomerButton, reset_conversationState, reset_store,
      hconv, hstep, hdate, hnle, havail, dropConversation, lookupPhone_removePhone_self]

theorem admin_exit_removes (sys : ChatSystem) (verify : String → String → Bool)
    (newId phone : String) (now : Nat)
    (h : (lookupPhone sys.adminSessions phone).isSome = true) :
    lookupPhone (handleEvent sys verify newId now
      (Event.adminButton phone AdminButton.exitBtn)).1.adminSessions phone = none := by
  obtain ⟨session, hsess⟩ := Option.isSome_iff_exists.mp h
  have hsess2 : lookupPhone (resetInactivityTimer sys phone now).adminSessions phone =
      some session := by
    rw [reset_adminSessions]
    exact hsess
  have hir : AdminPanelHandler.handleInteractiveResponse
      (resetInactivityTimer sys phone now) phone AdminButton.exitBtn =
      ({ resetInactivityTimer sys phone now with
          adminSessions := removePhone (resetInactivityTimer sys phone now).adminSessions phone },
        [Response.adminExitNotice phone], true) := by
    unfold AdminPanelHandler.handleInteractiveResponse
    rw [hsess2]
  simp [handleEvent, hir, lookupPhone_removePhone_self]

/-- **C9** (amended): the 10-minute inactivity watchdog belongs to the
customer ConversationSession only. (1) Every inbound event re-arms the open
conversation's timer to fire 10 minutes after the event. (2) When an armed
timer fires at or after its deadline, the conversation session, its timer
and the welcome flag are deleted, and the next plain text from that
identity is answered with the greeting menu and opens no session. (3) The
terminal conversation transitions — abandoning with a menu/inicio/salir
word, the menu button, and a successful booking commit — delete both the
session and its pending timer. (4) A staff AdminSession owns NO inactivity
timer: it is deleted by the explicit logout button, and by no other event
whatsoever. -/
theorem C9_session_timers (sys : ChatSystem) (verify : String → String → Bool)
    (newId phone : String) (now : Nat) :
    (∀ e : Event, eventPhone e = phone → isInboundMessage e = true →
      (lookupPhone (handleEvent sys verify newId now e).1.conversationState
        phone).isSome = true →
      lookupPhone (handleEvent sys verify newId now e).1.conversationTimers phone =
        some (now + inactivityTimeoutMinutes)) ∧
    (∀ d, lookupPhone sys.conversationTimers phone = some d → d ≤ now →
      (lookupPhone sys.conversationState phone).isSome = true →
      lookupPhone sys.adminSessions phone = none →
      lookupPhone (fireInactivityTimer sys phone now).1.conversationState phone = none ∧
      lookupPhone (fireInactivityTimer sys phone now).1.conversationTimers phone = none ∧
      (fireInactivityTimer sys phone now).1.welcomedUsers.contains phone = false ∧
      ∀ body now2,
        (handleEvent (fireInactivityTimer sys phone now).1 verify newId now2
          (Event.text phone body)).2 = [Response.welcomeMenu phone] ∧
        lookupPhone (handleEvent (fireInactivityTimer sys phone now).1 verify newId now2
          (Event.text phone body)).1.conversationState phone = none) ∧
    (∀ st w, lookupPhone sys.conversationState phone = some st →
      lookupPhone sys.adminSessions phone = none →
      (w = "menu" ∨ w = "inicio" ∨ w = "salir") →
      lookupPhone (handleEvent sys verify newId now
        (Event.text phone w)).1.conversationState phone = none ∧
      lookupPhone (handleEvent sys verify newId now
        (Event.text phone w)).1.conversationTimers phone = none) ∧
    (lookupPhone (handleEvent sys verify newId now
        (Event.button phone CustomerButton.btnMenu)).1.conversationState phone = none ∧
      lookupPhone (handleEvent sys verify newId now
        (Event.button phone CustomerButton.btnMenu)).1.conversationTimers phone = none) ∧
    (∀ st day hour, lookupPhone sys.conversationState phone = some st →
      st.step = Step.time → st.date = some day →
      now < day * minutesPerDay + hour * 60 →
      isSlotAvailable sys.store.appointments (st.barberId.getD "")
        (day * minutesPerDay + hour * 60) = true →
      lookupPhone (handleEvent sys verify newId now
        (Event.button phone (CustomerButton.timeSel hour))).1.conversationState phone = none ∧
      lookupPhone (handleEvent sys verify newId now
        (Event.button phone (CustomerButton.timeSel hour))).1.conversationTimers phone = none) ∧
    ((lookupPhone sys.adminSessions phone).isSome = true →
      lookupPhone (handleEvent sys verify newId now
        (Event.adminButton phone AdminButton.exitBtn)).1.adminSessions phone = none ∧
      ∀ e : Event, e ≠ Event.adminButton phone AdminButton.exitBtn →
        (lookupPhone (handleEvent sys verify newId now e).1.adminSessions
          phone).isSome = true) := by
  refine ⟨?_, ?_, ?_, ?_, ?_, ?_⟩
  · intro e hp hi hsome
    exact timerFresh_handleEvent sys verify newId now e phone hp hi hsome
  · intro d ht hd hconv hadmin
    exact expiry_closes_and_regreets sys verify newId phone now d ht hd hconv hadmin
  · intro st w hconv hadmin hw
    exact abandon_word_clears sys verify newId phone now st w hconv hadmin hw
  · exact btnMenu_clears sys verify newId phone now
  · intro st day hour hconv hstep hdate hfut havail
    exact commit_clears sys verify newId phone now st day hour hconv hstep hdate hfut havail
  · intro h
    exact ⟨admin_exit_removes sys verify newId phone now h,
      fun e hne => adminOpen_handleEvent sys verify newId now e phone h hne⟩

/-- The store behind the concrete session scenarios. -/
def storeC9 : Store :=
  { barbers := authDirectory, appointments := [], blockedSlots := [] }

/-- A freshly started system with no sessions. -/
def sysInit : ChatSystem :=
  { conversationState := [], conversationTimers := [], welcomedUsers := [],
    adminSessions := [], store := storeC9 }

/-- The system right after Carlos logs into the admin panel from phone
`p1`. -/
def sysAfterLogin : ChatSystem :=
  (handleEvent sysInit verifyW "id-0" 0 (Event.adminCmd "p1" "carlos" "1234")).1

/-- **C9** counterexample to the claim as stated: after a successful admin
login the AdminSession is open, yet NO inactivity timer exists for that
identity, and a timer-expiry check arbitrarily far in the future (here 100
windows later) leaves the session completely untouched — the session
outlives any 10-minute inactivity window and is never treated as expired. -/
theorem C9_counterexample :
    (lookupPhone sysAfterLogin.adminSessions "p1").isSome = true ∧
    lookupPhone sysAfterLogin.conversationTimers "p1" = none ∧
    (fireInactivityTimer sysAfterLogin "p1" (100 * inactivityTimeoutMinutes)).1 =
      sysAfterLogin := by
  refine ⟨by decide, by decide, by decide⟩

/-- Witness for `C9_session_timers`: from the concrete logged-in system,
the explicit logout button deletes Carlos's admin session. -/
theorem C9_session_timers_witness :
    lookupPhone (handleEvent sysAfterLogin verifyW "id-1" 5
      (Event.adminButton "p1" AdminButton.exitBtn)).1.adminSessions "p1" = none :=
  ((C9_session_timers sysAfterLogin verifyW "id-1" "p1" 5).2.2.2.2.2 (by decide)).1

end BigBrother
